import Mathlib

/-!
Shallow embedding of the playnamics space-invaders core (src/main.py) and
verification of the frozen claims about its simulation engine.

Modelling conventions:
* Python ints become `ℤ` (Python `//` becomes `Int.fdiv`), coordinates and
  speeds become `ℚ` (the game's float arithmetic is modelled as exact
  rational arithmetic; float literals 0.2, 0.4, 0.6, 1.2, 1.8 are the
  rationals 1/5, 2/5, 3/5, 6/5, 9/5).
* The distance test sqrt((x1-x2)^2+(y1-y2)^2) < t of is_collision is
  modelled by the equivalent squared comparison (for the nonnegative
  thresholds 27 and 40 used by the game).
* Randomness (random.choice, random.choices, random.uniform, random.randint,
  random.random() < 0.15) is modelled by oracle draws supplied to each tick;
  a validity predicate constrains each draw to the range the library call
  can return.  random.choice over a list is modelled by an arbitrary index
  into that list (`choose`), so every element is attainable.
* Python's pattern "iterate over a snapshot lst[:] while removing from lst"
  is modelled by a fold over the snapshot that rebuilds the surviving
  entries; since entries are compared by value, this produces the same list.
* The module-level globals `game_state` and `game` are packaged in `World`;
  side effects that leave the core (drawing, sounds, printing) are dropped.
-/

set_option linter.unusedVariables false

namespace SpaceInvaders

/-! ## Config constants (src/main.py lines 10-35) -/

def SCREEN_WIDTH : ℚ := 800
def SCREEN_HEIGHT : ℚ := 600
def PLAYER_SPEED : ℚ := 7
def ENEMY_SPEED : ℚ := 2
def BULLET_SPEED : ℚ := 10
def ENEMY_DROP_SPEED : ℚ := 30
def MAX_ENEMIES : ℤ := 8
def ENEMY_SPAWN_RATE : ℤ := 120
def ENEMY_HEALTH_INCREASE_RATE : ℤ := 3
def OBSTACLE_SPAWN_RATE : ℤ := 90
def OBSTACLE_SPEED_MIN : ℤ := 8
def OBSTACLE_SPEED_MAX : ℤ := 14

def ENEMY_BASIC : ℕ := 0
def ENEMY_FAST : ℕ := 1
def ENEMY_TANK : ℕ := 2

def MENU : ℕ := 0
def PLAYING : ℕ := 1
def GAME_OVER : ℕ := 2

/-! ## Entity records (the Python dicts of src/main.py) -/

/-- An enemy dict, lines 159-169.  The key `type` is rendered `etype`. -/
structure Enemy where
  x : ℚ
  y : ℚ
  x_change : ℚ
  y_change : ℚ
  fall_speed : ℚ
  etype : ℕ
  health : ℤ
  max_health : ℤ
  points : ℤ
deriving DecidableEq, Repr

/-- A bullet dict, line 307. -/
structure Bullet where
  x : ℚ
  y : ℚ
  speed : ℚ
deriving DecidableEq, Repr

/-- An obstacle dict, lines 174-181 (the color triple is carried verbatim). -/
structure Obstacle where
  x : ℚ
  y : ℚ
  w : ℚ
  h : ℚ
  speed : ℚ
  color : ℕ × ℕ × ℕ
deriving DecidableEq, Repr

/-- A power-up dict, line 377.  The key `type` is rendered `ptype`
(0 encodes the string constant for rapid fire, the only type created). -/
structure PowerUp where
  x : ℚ
  y : ℚ
  ptype : ℕ
  speed : ℚ
deriving DecidableEq, Repr

/-- The GameState container, lines 74-109. -/
structure Game where
  playerX : ℚ
  playerY : ℚ
  playerX_change : ℚ
  lives : ℤ
  score_value : ℤ
  level : ℤ
  game_over : Bool
  difficulty_multiplier : ℚ
  enemies : List Enemy
  enemy_spawn_timer : ℤ
  max_enemies_on_screen : ℤ
  obstacles : List Obstacle
  obstacle_spawn_timer : ℤ
  bullets : List Bullet
  shoot_cooldown : ℤ
  max_bullets : ℤ
  rapid_fire_timer : ℤ
  power_ups : List PowerUp
deriving DecidableEq, Repr

/-- The module-level globals: `game_state` (line 69) and `game` (line 184). -/
structure World where
  game_state : ℕ
  game : Game
deriving DecidableEq, Repr

/-! ## Random draws (oracle inputs standing for the random.* calls) -/

/-- The random draws consumed by one call of GameState.spawn_enemy.
`typeChoice` indexes the random.choice list of enemy types, `sideChoice`
indexes the weighted choices list (0 top, 1 left, 2 right), `u` is the
random.uniform(0.4, 1.2) draw, `xTop`, `yTop`, `yEdge` are the randint
draws, and `dirRight` is the random.choice([True, False]) draw. -/
structure SpawnDraw where
  typeChoice : ℕ
  sideChoice : ℕ
  u : ℚ
  xTop : ℤ
  yTop : ℤ
  yEdge : ℤ
  dirRight : Bool
deriving DecidableEq, Repr

/-- The random draws consumed by one call of GameState.spawn_obstacle:
`speedD` is randint(OBSTACLE_SPEED_MIN, OBSTACLE_SPEED_MAX) and `x` is
randint(0, SCREEN_WIDTH - 24). -/
structure ObsDraw where
  speedD : ℤ
  x : ℤ
deriving DecidableEq, Repr

/-- All random draws a single frame may consume: one enemy-spawn draw, one
obstacle draw, a stream of drop rolls (random.random() < 0.15, one per
enemy killed this frame, in kill order), and a stream of spawn draws for
the resets a menu / game-over keypress may trigger (reset number k uses
draws 4k..4k+3). -/
structure Oracle where
  spawn : SpawnDraw
  obs : ObsDraw
  drops : ℕ → Bool
  resetSpawns : ℕ → SpawnDraw

/-- Range constraints guaranteed by the random.* calls behind a spawn draw. -/
def ValidSpawn (d : SpawnDraw) : Prop :=
  2/5 ≤ d.u ∧ d.u ≤ 6/5 ∧
  0 ≤ d.xTop ∧ d.xTop ≤ 736 ∧
  -140 ≤ d.yTop ∧ d.yTop ≤ -60 ∧
  60 ≤ d.yEdge ∧ d.yEdge ≤ 200

instance (d : SpawnDraw) : Decidable (ValidSpawn d) := by
  unfold ValidSpawn; infer_instance

def ValidObs (d : ObsDraw) : Prop :=
  8 ≤ d.speedD ∧ d.speedD ≤ 14 ∧ 0 ≤ d.x ∧ d.x ≤ 776

instance (d : ObsDraw) : Decidable (ValidObs d) := by
  unfold ValidObs; infer_instance

def ValidOracle (o : Oracle) : Prop :=
  ValidSpawn o.spawn ∧ ValidObs o.obs ∧ ∀ n, ValidSpawn (o.resetSpawns n)

/-- random.choice over a list, driven by an oracle index: every list element
is attainable, and index i < length picks element i. -/
def choose {α : Type} (l : List α) (dflt : α) (i : ℕ) : α :=
  l.getD (i % l.length) dflt

/-! ## Geometry (lines 287-290 and 388-390) -/

/-- is_collision: sqrt((x1-x2)^2 + (y1-y2)^2) < threshold, written with the
squared distance (equivalent for the nonnegative thresholds used). -/
def is_collision (x1 y1 x2 y2 : ℚ) (threshold : ℚ := 27) : Bool :=
  decide ((x1 - x2) * (x1 - x2) + (y1 - y2) * (y1 - y2) < threshold * threshold)

/-- rect_overlap(ax, ay, aw, ah, bx, by, bw, bh), line 388.  The second
rectangle's fields are suffixed 2 because `by` is a Lean keyword. -/
def rect_overlap (ax ay aw ah x2 y2 w2 h2 : ℚ) : Bool :=
  decide (ax < x2 + w2 ∧ ax + aw > x2 ∧ ay < y2 + h2 ∧ ay + ah > y2)

/-! ## Spawners (GameState.spawn_enemy lines 116-169, spawn_obstacle 171-181) -/

/-- The enemy-type selection of spawn_enemy (lines 122-127). -/
def spawnType (level : ℤ) (d : SpawnDraw) : ℕ :=
  if level ≥ 5 then choose [ENEMY_BASIC, ENEMY_FAST, ENEMY_TANK] ENEMY_BASIC d.typeChoice
  else if level ≥ 3 then choose [ENEMY_BASIC, ENEMY_FAST] ENEMY_BASIC d.typeChoice
  else ENEMY_BASIC

/-- The enemy record built by a spawn_enemy call that passes the cap check
(lines 129-169). -/
def spawnedEnemy (g : Game) (d : SpawnDraw) : Enemy :=
  let etype := spawnType g.level d
  let health : ℤ :=
    if etype = ENEMY_BASIC then 1 + g.level.fdiv ENEMY_HEALTH_INCREASE_RATE
    else if etype = ENEMY_FAST then 1 + g.level.fdiv ENEMY_HEALTH_INCREASE_RATE
    else 3 + g.level.fdiv ENEMY_HEALTH_INCREASE_RATE
  let base_speed : ℚ :=
    if etype = ENEMY_BASIC then ENEMY_SPEED * g.difficulty_multiplier
    else if etype = ENEMY_FAST then ENEMY_SPEED * g.difficulty_multiplier * (9/5)
    else ENEMY_SPEED * g.difficulty_multiplier * (3/5)
  let points : ℤ := if etype = ENEMY_BASIC then 10 else if etype = ENEMY_FAST then 20 else 30
  let side := d.sideChoice % 3
  let fall_speed := d.u * (1 + (1/10) * ((g.level : ℚ) - 1))
  let x : ℚ := if side = 0 then (d.xTop : ℚ) else if side = 1 then -64 else SCREEN_WIDTH
  let y : ℚ := if side = 0 then (d.yTop : ℚ) else (d.yEdge : ℚ)
  let x_change : ℚ :=
    if side = 0 then (if d.dirRight then base_speed else -base_speed)
    else if side = 1 then |base_speed|
    else -|base_speed|
  { x := x, y := y, x_change := x_change, y_change := ENEMY_DROP_SPEED,
    fall_speed := fall_speed, etype := etype, health := health,
    max_health := health, points := points }

/-- GameState.spawn_enemy (lines 116-169). -/
def spawn_enemy (g : Game) (d : SpawnDraw) : Game :=
  if (g.enemies.length : ℤ) ≥ g.max_enemies_on_screen then g
  else { g with enemies := g.enemies ++ [spawnedEnemy g d] }

/-- GameState.spawn_obstacle. -/
def spawn_obstacle (g : Game) (d : ObsDraw) : Game :=
  let speed : ℤ := d.speedD + g.level.fdiv 2
  { g with obstacles := g.obstacles ++
      [{ x := (d.x : ℚ), y := -24, w := 20, h := 20, speed := (speed : ℚ),
         color := (200, 180, 60) }] }

/-- GameState.reset_game before spawn_initial_enemies runs (lines 79-106). -/
def freshGame : Game where
  playerX := 368
  playerY := 480
  playerX_change := 0
  lives := 3
  score_value := 0
  level := 1
  game_over := false
  difficulty_multiplier := 1
  enemies := []
  enemy_spawn_timer := 0
  max_enemies_on_screen := 6
  obstacles := []
  obstacle_spawn_timer := 0
  bullets := []
  shoot_cooldown := 0
  max_bullets := 3
  rapid_fire_timer := 0
  power_ups := []

/-- GameState.spawn_initial_enemies: four spawn_enemy calls (lines 111-114),
consuming draws d 0 .. d 3 in order. -/
def spawn_initial_enemies (g : Game) (d : ℕ → SpawnDraw) : Game :=
  spawn_enemy (spawn_enemy (spawn_enemy (spawn_enemy g (d 0)) (d 1)) (d 2)) (d 3)

/-- GameState.reset_game (lines 79-109). -/
def reset_game (d : ℕ → SpawnDraw) : Game :=
  spawn_initial_enemies freshGame d

/-! ## Per-subsystem updates (lines 293-335) -/

/-- update_player (lines 293-299). -/
def update_player (g : Game) : Game :=
  let px := g.playerX + g.playerX_change
  let px := if px ≤ 0 then 0 else if px ≥ SCREEN_WIDTH - 64 then SCREEN_WIDTH - 64 else px
  { g with playerX := px }

/-- create_bullet (lines 302-309). -/
def create_bullet (g : Game) : Game :=
  let cooldown : ℤ := if g.rapid_fire_timer > 0 then 5 else 15
  let mx : ℤ := if g.rapid_fire_timer > 0 then 5 else g.max_bullets
  if g.shoot_cooldown ≤ 0 ∧ (g.bullets.length : ℤ) < mx then
    { g with bullets := g.bullets ++ [{ x := g.playerX, y := g.playerY, speed := BULLET_SPEED }],
             shoot_cooldown := cooldown }
  else g

/-- update_bullets (lines 312-321). -/
def update_bullets (g : Game) : Game :=
  let sc := if g.shoot_cooldown > 0 then g.shoot_cooldown - 1 else g.shoot_cooldown
  let rf := if g.rapid_fire_timer > 0 then g.rapid_fire_timer - 1 else g.rapid_fire_timer
  { g with shoot_cooldown := sc, rapid_fire_timer := rf,
           bullets := (g.bullets.map fun b => { b with y := b.y - b.speed }).filter
             fun b => decide (¬ b.y < 0) }

/-- One iteration of the update_power_ups loop (lines 326-335); the fold
state is the game together with the surviving power-ups so far. -/
def powerUpStep (st : Game × List PowerUp) (p : PowerUp) : Game × List PowerUp :=
  let g := st.1
  let p := { p with y := p.y + p.speed }
  if p.y > SCREEN_HEIGHT then (g, st.2)
  else if is_collision p.x p.y g.playerX g.playerY 40 then
    (if p.ptype = 0 then { g with rapid_fire_timer := 300 } else g, st.2)
  else (g, st.2 ++ [p])

/-- update_power_ups (lines 324-335). -/
def update_power_ups (g : Game) : Game :=
  let r := g.power_ups.foldl powerUpStep (g, [])
  { r.1 with power_ups := r.2 }

/-! ## update_enemies (lines 338-385) -/

/-- The per-enemy movement of lines 356-365: horizontal move, edge bounce
with vertical step-down, then the continuous fall drift. -/
def moveEnemy (e : Enemy) : Enemy :=
  if e.x + e.x_change ≤ 0 then
    { e with x := e.x + e.x_change, x_change := |e.x_change|,
             y := e.y + e.y_change + e.fall_speed }
  else if e.x + e.x_change ≥ SCREEN_WIDTH - 64 then
    { e with x := e.x + e.x_change, x_change := -|e.x_change|,
             y := e.y + e.y_change + e.fall_speed }
  else
    { e with x := e.x + e.x_change, y := e.y + e.fall_speed }

/-- The inner bullet loop of lines 367-369: find the first bullet colliding
with the enemy; `some bs` returns the bullet list with that bullet removed. -/
def hitSplit (e : Enemy) : List Bullet → Option (List Bullet)
  | [] => none
  | b :: bs =>
      if is_collision e.x e.y b.x b.y 27 then some bs
      else (hitSplit e bs).map fun r => b :: r

/-- The level-up evaluation of lines 379-384. -/
def levelUpCheck (g : Game) : Game :=
  let points_needed := 150 + g.level * 50
  if g.score_value ≥ points_needed * g.level then
    let lv := g.level + 1
    { g with level := lv,
             difficulty_multiplier := g.difficulty_multiplier + 1/5,
             max_enemies_on_screen := min MAX_ENEMIES (4 + lv) }
  else g

/-- The game after the kill's score award (line 373). -/
def scoredGame (g : Game) (e : Enemy) : Game :=
  { g with score_value := g.score_value + e.points }

/-- The game after the kill's score award and a successful 15% power-up
drop roll (lines 373-377). -/
def scoredDropGame (g : Game) (e : Enemy) : Game :=
  { scoredGame g e with
    power_ups := (scoredGame g e).power_ups ++
      [{ x := e.x, y := e.y, ptype := 0, speed := 2 }] }

/-- The enemy-death handling of lines 372-384 (the enemy itself is dropped
by the caller): add points, roll the 15% power-up drop, evaluate level-up. -/
def enemyKill (g : Game) (e : Enemy) (drop : Bool) : Game :=
  if drop then levelUpCheck (scoredDropGame g e)
  else levelUpCheck (scoredGame g e)

/-- Fold state of the update_enemies loop: current globals, surviving
enemies so far, number of drop rolls consumed. -/
def ProcState : Type := World × List Enemy × ℕ

/-- One iteration of the update_enemies loop over the snapshot (lines
348-385): player-zone breach costs a life (and may end the game), otherwise
the enemy moves and at most the first colliding bullet hits it. -/
def processEnemy (drops : ℕ → Bool) (st : ProcState) (e : Enemy) : ProcState :=
  if e.y > SCREEN_HEIGHT - 160 then
    if st.1.game.lives - 1 ≤ 0 then
      (⟨GAME_OVER, { st.1.game with lives := st.1.game.lives - 1, game_over := true }⟩,
       st.2.1, st.2.2)
    else
      (⟨st.1.game_state, { st.1.game with lives := st.1.game.lives - 1 }⟩, st.2.1, st.2.2)
  else
    match hitSplit (moveEnemy e) st.1.game.bullets with
    | none => (st.1, st.2.1 ++ [moveEnemy e], st.2.2)
    | some bs =>
        if (moveEnemy e).health - 1 ≤ 0 then
          (⟨st.1.game_state,
            enemyKill { st.1.game with bullets := bs }
              { moveEnemy e with health := (moveEnemy e).health - 1 } (drops st.2.2)⟩,
           st.2.1, st.2.2 + 1)
        else
          (⟨st.1.game_state, { st.1.game with bullets := bs }⟩,
           st.2.1 ++ [{ moveEnemy e with health := (moveEnemy e).health - 1 }], st.2.2)

/-- update_enemies (lines 338-385): timed spawn, then the loop over the
enemy snapshot. -/
def update_enemies (w : World) (o : Oracle) : World :=
  let g := { w.game with enemy_spawn_timer := w.game.enemy_spawn_timer + 1 }
  let spawn_rate := max 30 (ENEMY_SPAWN_RATE - g.level * 10)
  let g := if g.enemy_spawn_timer ≥ spawn_rate
    then { spawn_enemy g o.spawn with enemy_spawn_timer := 0 } else g
  let st := g.enemies.foldl (processEnemy o.drops) ((⟨w.game_state, g⟩, [], 0) : ProcState)
  ⟨st.1.game_state, { st.1.game with enemies := st.2.1 }⟩

/-! ## update_obstacles (lines 393-419) -/

/-- The inner bullet loop of lines 408-411: remove the first bullet whose
rectangle overlaps the obstacle; `none` when no bullet overlaps. -/
def absorbSplit (obs : Obstacle) : List Bullet → Option (List Bullet)
  | [] => none
  | b :: bs =>
      if rect_overlap b.x b.y 8 16 obs.x obs.y obs.w obs.h then some bs
      else (absorbSplit obs bs).map fun r => b :: r

/-- The obstacle after its downward move (line 403). -/
def movedObs (obs : Obstacle) : Obstacle :=
  { obs with y := obs.y + obs.speed }

/-- The bullet list after the obstacle absorbed a bullet (lines 408-411):
unchanged when no bullet overlaps, else with the first overlapping bullet
removed. -/
def obsBullets (g : Game) (obs : Obstacle) : List Bullet :=
  match absorbSplit obs g.bullets with
  | none => g.bullets
  | some bs => bs

/-- One iteration of the update_obstacles loop (lines 402-419). -/
def processObstacle (st : World × List Obstacle) (obs : Obstacle) : World × List Obstacle :=
  if (movedObs obs).y > SCREEN_HEIGHT then (st.1, st.2)
  else
    if rect_overlap st.1.game.playerX st.1.game.playerY 64 64 (movedObs obs).x
        (movedObs obs).y (movedObs obs).w (movedObs obs).h then
      if st.1.game.lives - 1 ≤ 0 then
        (⟨GAME_OVER,
          { st.1.game with
            bullets := obsBullets st.1.game (movedObs obs),
            lives := st.1.game.lives - 1,
            game_over := true }⟩, st.2)
      else
        (⟨st.1.game_state,
          { st.1.game with
            bullets := obsBullets st.1.game (movedObs obs),
            lives := st.1.game.lives - 1 }⟩, st.2)
    else
      (⟨st.1.game_state, { st.1.game with bullets := obsBullets st.1.game (movedObs obs) }⟩,
       st.2 ++ [movedObs obs])

/-- update_obstacles (lines 393-419): timed spawn, then the loop over the
obstacle snapshot. -/
def update_obstacles (w : World) (o : Oracle) : World :=
  let g := { w.game with obstacle_spawn_timer := w.game.obstacle_spawn_timer + 1 }
  let rate := max 30 (OBSTACLE_SPAWN_RATE - g.level * 5)
  let g := if g.obstacle_spawn_timer ≥ rate
    then { spawn_obstacle g o.obs with obstacle_spawn_timer := 0 } else g
  let st := g.obstacles.foldl processObstacle ((⟨w.game_state, g⟩, []) : World × List Obstacle)
  ⟨st.1.game_state, { st.1.game with obstacles := st.2 }⟩

/-! ## Input handling (lines 433-482) -/

/-- The semantic key alphabet the handlers react to. -/
inductive Key where
  | space
  | escape
  | rkey
  | other
deriving DecidableEq, Repr

/-- A discrete pygame event: QUIT or a KEYDOWN. -/
inductive Ev where
  | quit
  | key (k : Key)
deriving DecidableEq, Repr

/-- The per-tick input: the event queue and the held direction keys
(left stands for K_LEFT or K_a, right for K_RIGHT or K_d). -/
structure Input where
  events : List Ev
  leftHeld : Bool
  rightHeld : Bool
deriving DecidableEq, Repr

/-- handle_menu_input (lines 433-445): SPACE resets and starts (reset k
consumes spawn draws 4k..4k+3), ESC or QUIT quits, stopping the loop. -/
def handle_menu_input (rs : ℕ → SpawnDraw) : World → List Ev → ℕ → World × Bool
  | w, [], _ => (w, true)
  | w, Ev.quit :: _, _ => (w, false)
  | w, Ev.key Key.space :: rest, k =>
      handle_menu_input rs ⟨PLAYING, reset_game fun i => rs (4 * k + i)⟩ rest (k + 1)
  | w, Ev.key Key.escape :: _, _ => (w, false)
  | w, Ev.key _ :: rest, k => handle_menu_input rs w rest k

/-- The event loop of handle_game_input (lines 452-459). -/
def handle_game_events : World → List Ev → World × Bool
  | w, [] => (w, true)
  | w, Ev.quit :: _ => (w, false)
  | w, Ev.key Key.space :: rest => handle_game_events ⟨w.game_state, create_bullet w.game⟩ rest
  | w, Ev.key Key.escape :: rest => handle_game_events ⟨MENU, w.game⟩ rest
  | w, Ev.key _ :: rest => handle_game_events w rest

/-- handle_game_input (lines 448-467): events, then continuous movement
from the held keys (skipped when a QUIT event returned early). -/
def handle_game_input (w : World) (inp : Input) : World × Bool :=
  if (handle_game_events w inp.events).2 then
    (⟨(handle_game_events w inp.events).1.game_state,
      { (handle_game_events w inp.events).1.game with
        playerX_change :=
          if inp.leftHeld then -PLAYER_SPEED
          else if inp.rightHeld then PLAYER_SPEED
          else 0 }⟩, true)
  else handle_game_events w inp.events

/-- handle_game_over_input (lines 470-482): R resets and restarts, ESC or
QUIT quits. -/
def handle_game_over_input (rs : ℕ → SpawnDraw) : World → List Ev → ℕ → World × Bool
  | w, [], _ => (w, true)
  | w, Ev.quit :: _, _ => (w, false)
  | w, Ev.key Key.rkey :: rest, k =>
      handle_game_over_input rs ⟨PLAYING, reset_game fun i => rs (4 * k + i)⟩ rest (k + 1)
  | w, Ev.key Key.escape :: _, _ => (w, false)
  | w, Ev.key _ :: rest, k => handle_game_over_input rs w rest k

/-! ## The frame driver (main, lines 489-524) -/

/-- One iteration of the main loop: input handling for the current mode and,
in PLAYING mode with the game-over flag unset, the five subsystem updates in
their fixed order.  The Bool is the loop's `running` flag. -/
def tick (w : World) (inp : Input) (o : Oracle) : World × Bool :=
  if w.game_state = MENU then
    handle_menu_input o.resetSpawns w inp.events 0
  else if w.game_state = PLAYING then
    (if ¬ (handle_game_input w inp).1.game.game_over then
       update_obstacles
         (update_enemies
           ⟨(handle_game_input w inp).1.game_state,
            update_power_ups
              (update_bullets (update_player (handle_game_input w inp).1.game))⟩ o) o
     else (handle_game_input w inp).1,
     (handle_game_input w inp).2)
  else if w.game_state = GAME_OVER then
    handle_game_over_input o.resetSpawns w inp.events 0
  else (w, true)

/-- The states a play session can reach: the module-level initialisation
`game = GameState()` in MENU mode, closed under frames with any input and
any valid random draws. -/
inductive Reachable : World → Prop where
  | init (d : ℕ → SpawnDraw) (hd : ∀ n, ValidSpawn (d n)) :
      Reachable ⟨MENU, reset_game d⟩
  | step {w : World} (inp : Input) (o : Oracle) (ho : ValidOracle o)
      (hw : Reachable w) : Reachable (tick w inp o).1

/-! ## Basic lemmas about the spawners and reset -/

theorem spawn_enemy_at_cap {g : Game} {d : SpawnDraw}
    (h : (g.enemies.length : ℤ) ≥ g.max_enemies_on_screen) : spawn_enemy g d = g := by
  unfold spawn_enemy
  exact if_pos h

theorem spawn_enemy_below_cap {g : Game} {d : SpawnDraw}
    (h : ¬ (g.enemies.length : ℤ) ≥ g.max_enemies_on_screen) :
    spawn_enemy g d = { g with enemies := g.enemies ++ [spawnedEnemy g d] } := by
  unfold spawn_enemy
  exact if_neg h

theorem spawn_enemy_untouched (g : Game) (d : SpawnDraw) :
    (spawn_enemy g d).playerX = g.playerX ∧
    (spawn_enemy g d).playerY = g.playerY ∧
    (spawn_enemy g d).playerX_change = g.playerX_change ∧
    (spawn_enemy g d).lives = g.lives ∧
    (spawn_enemy g d).score_value = g.score_value ∧
    (spawn_enemy g d).level = g.level ∧
    (spawn_enemy g d).game_over = g.game_over ∧
    (spawn_enemy g d).difficulty_multiplier = g.difficulty_multiplier ∧
    (spawn_enemy g d).enemy_spawn_timer = g.enemy_spawn_timer ∧
    (spawn_enemy g d).max_enemies_on_screen = g.max_enemies_on_screen ∧
    (spawn_enemy g d).obstacles = g.obstacles ∧
    (spawn_enemy g d).obstacle_spawn_timer = g.obstacle_spawn_timer ∧
    (spawn_enemy g d).bullets = g.bullets ∧
    (spawn_enemy g d).shoot_cooldown = g.shoot_cooldown ∧
    (spawn_enemy g d).max_bullets = g.max_bullets ∧
    (spawn_enemy g d).rapid_fire_timer = g.rapid_fire_timer ∧
    (spawn_enemy g d).power_ups = g.power_ups := by
  unfold spawn_enemy
  split <;> simp

theorem spawn_enemy_length (g : Game) (d : SpawnDraw) :
    (spawn_enemy g d).enemies.length = g.enemies.length ∨
    (spawn_enemy g d).enemies.length = g.enemies.length + 1 := by
  unfold spawn_enemy
  split
  · exact Or.inl rfl
  · exact Or.inr (by simp)

theorem reset_game_values (d : ℕ → SpawnDraw) :
    (reset_game d).playerX = 368 ∧
    (reset_game d).playerY = 480 ∧
    (reset_game d).playerX_change = 0 ∧
    (reset_game d).lives = 3 ∧
    (reset_game d).score_value = 0 ∧
    (reset_game d).level = 1 ∧
    (reset_game d).game_over = false ∧
    (reset_game d).difficulty_multiplier = 1 ∧
    (reset_game d).enemy_spawn_timer = 0 ∧
    (reset_game d).max_enemies_on_screen = 6 ∧
    (reset_game d).obstacles = [] ∧
    (reset_game d).obstacle_spawn_timer = 0 ∧
    (reset_game d).bullets = [] ∧
    (reset_game d).shoot_cooldown = 0 ∧
    (reset_game d).max_bullets = 3 ∧
    (reset_game d).rapid_fire_timer = 0 ∧
    (reset_game d).power_ups = [] := by
  simp [reset_game, spawn_initial_enemies, spawn_enemy, spawnedEnemy, freshGame]

theorem reset_game_enemy_count (d : ℕ → SpawnDraw) :
    (reset_game d).enemies.length = 4 := by
  simp [reset_game, spawn_initial_enemies, spawn_enemy, spawnedEnemy, freshGame]

/-! ## Lemmas about the combat helpers -/

theorem levelUpCheck_pos {g : Game} (h : g.score_value ≥ (150 + g.level * 50) * g.level) :
    levelUpCheck g = { g with level := g.level + 1,
                              difficulty_multiplier := g.difficulty_multiplier + 1/5,
                              max_enemies_on_screen := min MAX_ENEMIES (4 + (g.level + 1)) } := by
  unfold levelUpCheck
  exact if_pos h

theorem levelUpCheck_neg {g : Game} (h : ¬ g.score_value ≥ (150 + g.level * 50) * g.level) :
    levelUpCheck g = g := by
  unfold levelUpCheck
  exact if_neg h

theorem levelUpCheck_untouched (g : Game) :
    (levelUpCheck g).playerX = g.playerX ∧
    (levelUpCheck g).playerY = g.playerY ∧
    (levelUpCheck g).playerX_change = g.playerX_change ∧
    (levelUpCheck g).lives = g.lives ∧
    (levelUpCheck g).score_value = g.score_value ∧
    (levelUpCheck g).game_over = g.game_over ∧
    (levelUpCheck g).enemies = g.enemies ∧
    (levelUpCheck g).enemy_spawn_timer = g.enemy_spawn_timer ∧
    (levelUpCheck g).obstacles = g.obstacles ∧
    (levelUpCheck g).obstacle_spawn_timer = g.obstacle_spawn_timer ∧
    (levelUpCheck g).bullets = g.bullets ∧
    (levelUpCheck g).shoot_cooldown = g.shoot_cooldown ∧
    (levelUpCheck g).max_bullets = g.max_bullets ∧
    (levelUpCheck g).rapid_fire_timer = g.rapid_fire_timer ∧
    (levelUpCheck g).power_ups = g.power_ups := by
  simp [levelUpCheck, apply_ite]

theorem enemyKill_untouched (g : Game) (e : Enemy) (drop : Bool) :
    (enemyKill g e drop).playerX = g.playerX ∧
    (enemyKill g e drop).playerY = g.playerY ∧
    (enemyKill g e drop).playerX_change = g.playerX_change ∧
    (enemyKill g e drop).lives = g.lives ∧
    (enemyKill g e drop).game_over = g.game_over ∧
    (enemyKill g e drop).enemies = g.enemies ∧
    (enemyKill g e drop).enemy_spawn_timer = g.enemy_spawn_timer ∧
    (enemyKill g e drop).obstacles = g.obstacles ∧
    (enemyKill g e drop).obstacle_spawn_timer = g.obstacle_spawn_timer ∧
    (enemyKill g e drop).bullets = g.bullets ∧
    (enemyKill g e drop).shoot_cooldown = g.shoot_cooldown ∧
    (enemyKill g e drop).max_bullets = g.max_bullets ∧
    (enemyKill g e drop).rapid_fire_timer = g.rapid_fire_timer := by
  cases drop <;> simp [enemyKill, scoredGame, scoredDropGame, levelUpCheck, apply_ite]

theorem enemyKill_score (g : Game) (e : Enemy) (drop : Bool) :
    (enemyKill g e drop).score_value = g.score_value + e.points := by
  cases drop <;> simp [enemyKill, scoredGame, scoredDropGame, levelUpCheck, apply_ite]

theorem hitSplit_length {e : Enemy} : ∀ {l l' : List Bullet},
    hitSplit e l = some l' → l'.length + 1 = l.length := by
  intro l
  induction l with
  | nil => intro l' h; simp [hitSplit] at h
  | cons b bs ih =>
      intro l' h
      unfold hitSplit at h
      split at h
      · cases h; simp
      · cases hr : hitSplit e bs with
        | none => rw [hr] at h; simp at h
        | some r => rw [hr] at h; simp at h; subst h; simp [ih hr]

theorem absorbSplit_length {o : Obstacle} : ∀ {l l' : List Bullet},
    absorbSplit o l = some l' → l'.length + 1 = l.length := by
  intro l
  induction l with
  | nil => intro l' h; simp [absorbSplit] at h
  | cons b bs ih =>
      intro l' h
      unfold absorbSplit at h
      split at h
      · cases h; simp
      · cases hr : absorbSplit o bs with
        | none => rw [hr] at h; simp at h
        | some r => rw [hr] at h; simp at h; subst h; simp [ih hr]

/-! ## Lives / game-over bookkeeping through the combat loops -/

/-- Relation between the game-over flag, the mode and the lives counter
that the combat loops maintain: either the flag is still down, the mode is
still the mode `m0` the loop started from and at least one life remains, or
the flag is up, the mode is GAME_OVER and lives have run out. -/
def LiveOk (m0 : ℕ) (w : World) : Prop :=
  (w.game.game_over = false ∧ w.game_state = m0 ∧ 1 ≤ w.game.lives) ∨
  (w.game.game_over = true ∧ w.game_state = GAME_OVER ∧ w.game.lives ≤ 0)

/-- Invariant carried through the update_enemies fold, relative to the
pre-loop game `g0`. -/
def EnemyInv (m0 : ℕ) (g0 : Game) (st : ProcState) : Prop :=
  LiveOk m0 st.1 ∧
  st.1.game.bullets.length ≤ g0.bullets.length ∧
  st.1.game.max_bullets = g0.max_bullets ∧
  st.1.game.shoot_cooldown = g0.shoot_cooldown

theorem foldl_preserve {α β : Type} {P : β → Prop} (f : β → α → β)
    (h : ∀ b a, P b → P (f b a)) : ∀ (l : List α) (b : β), P b → P (l.foldl f b) := by
  intro l
  induction l with
  | nil => intro b hb; simpa using hb
  | cons a t ih => intro b hb; rw [List.foldl_cons]; exact ih _ (h _ _ hb)

theorem processEnemy_inv (drops : ℕ → Bool) (m0 : ℕ) (g0 : Game)
    (st : ProcState) (e : Enemy) (h : EnemyInv m0 g0 st) :
    EnemyInv m0 g0 (processEnemy drops st e) := by
  obtain ⟨hl, hb, hm, hs⟩ := h
  unfold processEnemy
  by_cases hy : e.y > SCREEN_HEIGHT - 160
  · rw [if_pos hy]
    by_cases hlv : st.1.game.lives - 1 ≤ 0
    · rw [if_pos hlv]
      exact ⟨Or.inr ⟨rfl, rfl, hlv⟩, hb, hm, hs⟩
    · rw [if_neg hlv]
      rcases hl with ⟨hf, hmm, h1⟩ | ⟨hf, hmm, h0⟩
      · exact ⟨Or.inl ⟨hf, hmm, (by omega : (1:ℤ) ≤ st.1.game.lives - 1)⟩, hb, hm, hs⟩
      · exact absurd (by omega : st.1.game.lives - 1 ≤ 0) hlv
  · rw [if_neg hy]
    split
    next heq => exact ⟨hl, hb, hm, hs⟩
    next bs hh =>
        have hlen := hitSplit_length hh
        by_cases hhp : (moveEnemy e).health - 1 ≤ 0
        · rw [if_pos hhp]
          obtain ⟨-, -, -, hkl, hkgo, -, -, -, -, hkb, hksc, hkmb, -⟩ :=
            enemyKill_untouched { st.1.game with bullets := bs }
              { moveEnemy e with health := (moveEnemy e).health - 1 } (drops st.2.2)
          refine ⟨?_, ?_, ?_, ?_⟩
          · show LiveOk m0 ⟨st.1.game_state, enemyKill _ _ _⟩
            unfold LiveOk at hl ⊢
            simp only [hkl, hkgo]
            simpa using hl
          · show (enemyKill _ _ _).bullets.length ≤ g0.bullets.length
            rw [hkb]
            show bs.length ≤ g0.bullets.length
            omega
          · show (enemyKill _ _ _).max_bullets = g0.max_bullets
            rw [hkmb]
            exact hm
          · show (enemyKill _ _ _).shoot_cooldown = g0.shoot_cooldown
            rw [hksc]
            exact hs
        · rw [if_neg hhp]
          exact ⟨hl, (by omega : bs.length ≤ g0.bullets.length), hm, hs⟩

/-- Invariant carried through the update_obstacles fold, relative to the
pre-loop game `g0`. -/
def ObsInv (m0 : ℕ) (g0 : Game) (st : World × List Obstacle) : Prop :=
  LiveOk m0 st.1 ∧
  st.1.game.bullets.length ≤ g0.bullets.length ∧
  st.1.game.max_bullets = g0.max_bullets ∧
  st.1.game.shoot_cooldown = g0.shoot_cooldown

theorem obsBullets_length (g : Game) (obs : Obstacle) :
    (obsBullets g obs).length ≤ g.bullets.length := by
  unfold obsBullets
  split
  next => exact le_refl _
  next bs hh => have := absorbSplit_length hh; omega

theorem processObstacle_inv (m0 : ℕ) (g0 : Game)
    (st : World × List Obstacle) (obs : Obstacle) (h : ObsInv m0 g0 st) :
    ObsInv m0 g0 (processObstacle st obs) := by
  obtain ⟨hl, hb, hm, hs⟩ := h
  have hob := obsBullets_length st.1.game (movedObs obs)
  unfold processObstacle
  by_cases hy : (movedObs obs).y > SCREEN_HEIGHT
  · rw [if_pos hy]
    exact ⟨hl, hb, hm, hs⟩
  · rw [if_neg hy]
    by_cases hov : rect_overlap st.1.game.playerX st.1.game.playerY 64 64 (movedObs obs).x
        (movedObs obs).y (movedObs obs).w (movedObs obs).h = true
    · rw [if_pos hov]
      by_cases hlv : st.1.game.lives - 1 ≤ 0
      · rw [if_pos hlv]
        exact ⟨Or.inr ⟨rfl, rfl, hlv⟩, (by omega : (obsBullets st.1.game (movedObs obs)).length ≤ g0.bullets.length), hm, hs⟩
      · rw [if_neg hlv]
        rcases hl with ⟨hf, hmm, h1⟩ | ⟨hf, hmm, h0⟩
        · exact ⟨Or.inl ⟨hf, hmm, (by omega : (1:ℤ) ≤ st.1.game.lives - 1)⟩,
            (by omega : (obsBullets st.1.game (movedObs obs)).length ≤ g0.bullets.length), hm, hs⟩
        · exact absurd (by omega : st.1.game.lives - 1 ≤ 0) hlv
    · rw [if_neg hov]
      exact ⟨hl, (by omega : (obsBullets st.1.game (movedObs obs)).length ≤ g0.bullets.length),
        hm, hs⟩

/-- LiveOk only looks at the flag, the mode and the lives counter. -/
theorem liveOk_of_fields (m0 : ℕ) (w w' : World)
    (hgo : w'.game.game_over = w.game.game_over)
    (hmm : w'.game_state = w.game_state)
    (hlv : w'.game.lives = w.game.lives) (h : LiveOk m0 w) : LiveOk m0 w' := by
  unfold LiveOk at h ⊢
  rw [hgo, hmm, hlv]
  exact h

theorem update_enemies_spec (m0 : ℕ) (w : World) (o : Oracle) (h : LiveOk m0 w) :
    LiveOk m0 (update_enemies w o) ∧
    (update_enemies w o).game.bullets.length ≤ w.game.bullets.length ∧
    (update_enemies w o).game.max_bullets = w.game.max_bullets ∧
    (update_enemies w o).game.shoot_cooldown = w.game.shoot_cooldown := by
  unfold update_enemies
  set g1 : Game := { w.game with enemy_spawn_timer := w.game.enemy_spawn_timer + 1 } with hg1
  set g2 : Game := if g1.enemy_spawn_timer ≥ max 30 (ENEMY_SPAWN_RATE - g1.level * 10)
    then { spawn_enemy g1 o.spawn with enemy_spawn_timer := 0 } else g1 with hg2
  have hsp := spawn_enemy_untouched g1 o.spawn
  have h2 : g2.game_over = w.game.game_over ∧ g2.lives = w.game.lives ∧
      g2.bullets = w.game.bullets ∧
      g2.max_bullets = w.game.max_bullets ∧ g2.shoot_cooldown = w.game.shoot_cooldown := by
    rw [hg2]
    split
    · exact ⟨hsp.2.2.2.2.2.2.1, hsp.2.2.2.1, hsp.2.2.2.2.2.2.2.2.2.2.2.2.1,
        hsp.2.2.2.2.2.2.2.2.2.2.2.2.2.2.1, hsp.2.2.2.2.2.2.2.2.2.2.2.2.2.1⟩
    · exact ⟨rfl, rfl, rfl, rfl, rfl⟩
  have hstart : EnemyInv m0 w.game (⟨w.game_state, g2⟩, ([] : List Enemy), (0 : ℕ)) := by
    refine ⟨liveOk_of_fields m0 w ⟨w.game_state, g2⟩ h2.1 rfl h2.2.1 h, ?_,
      h2.2.2.2.1, h2.2.2.2.2⟩
    show g2.bullets.length ≤ w.game.bullets.length
    rw [h2.2.2.1]
  have hfold := foldl_preserve (processEnemy o.drops) (processEnemy_inv o.drops m0 w.game)
    g2.enemies (⟨w.game_state, g2⟩, ([] : List Enemy), (0 : ℕ)) hstart
  obtain ⟨hl, hb, hm, hs⟩ := hfold
  exact ⟨liveOk_of_fields m0 _ _ rfl rfl rfl hl, hb, hm, hs⟩

theorem update_obstacles_spec (m0 : ℕ) (w : World) (o : Oracle) (h : LiveOk m0 w) :
    LiveOk m0 (update_obstacles w o) ∧
    (update_obstacles w o).game.bullets.length ≤ w.game.bullets.length ∧
    (update_obstacles w o).game.max_bullets = w.game.max_bullets ∧
    (update_obstacles w o).game.shoot_cooldown = w.game.shoot_cooldown := by
  unfold update_obstacles
  set g1 : Game := { w.game with obstacle_spawn_timer := w.game.obstacle_spawn_timer + 1 } with hg1
  set g2 : Game := if g1.obstacle_spawn_timer ≥ max 30 (OBSTACLE_SPAWN_RATE - g1.level * 5)
    then { spawn_obstacle g1 o.obs with obstacle_spawn_timer := 0 } else g1 with hg2
  have h2 : g2.game_over = w.game.game_over ∧ g2.lives = w.game.lives ∧
      g2.bullets = w.game.bullets ∧
      g2.max_bullets = w.game.max_bullets ∧ g2.shoot_cooldown = w.game.shoot_cooldown := by
    rw [hg2]
    split
    · exact ⟨rfl, rfl, rfl, rfl, rfl⟩
    · exact ⟨rfl, rfl, rfl, rfl, rfl⟩
  have hstart : ObsInv m0 w.game (⟨w.game_state, g2⟩, ([] : List Obstacle)) := by
    refine ⟨liveOk_of_fields m0 w ⟨w.game_state, g2⟩ h2.1 rfl h2.2.1 h, ?_,
      h2.2.2.2.1, h2.2.2.2.2⟩
    show g2.bullets.length ≤ w.game.bullets.length
    rw [h2.2.2.1]
  have hfold := foldl_preserve processObstacle (processObstacle_inv m0 w.game)
    g2.obstacles (⟨w.game_state, g2⟩, ([] : List Obstacle)) hstart
  obtain ⟨hl, hb, hm, hs⟩ := hfold
  exact ⟨liveOk_of_fields m0 _ _ rfl rfl rfl hl, hb, hm, hs⟩

theorem update_player_untouched (g : Game) :
    (update_player g).lives = g.lives ∧
    (update_player g).game_over = g.game_over ∧
    (update_player g).bullets = g.bullets ∧
    (update_player g).max_bullets = g.max_bullets ∧
    (update_player g).shoot_cooldown = g.shoot_cooldown ∧
    (update_player g).rapid_fire_timer = g.rapid_fire_timer := by
  unfold update_player
  exact ⟨rfl, rfl, rfl, rfl, rfl, rfl⟩

theorem update_bullets_spec (g : Game) :
    (update_bullets g).lives = g.lives ∧
    (update_bullets g).game_over = g.game_over ∧
    (update_bullets g).max_bullets = g.max_bullets ∧
    (update_bullets g).bullets.length ≤ g.bullets.length ∧
    (0 ≤ g.shoot_cooldown → 0 ≤ (update_bullets g).shoot_cooldown) := by
  unfold update_bullets
  refine ⟨rfl, rfl, rfl, ?_, ?_⟩
  · show (List.filter _ (List.map _ g.bullets)).length ≤ g.bullets.length
    calc (List.filter _ (List.map _ g.bullets)).length
        ≤ (List.map (fun b => { b with y := b.y - b.speed }) g.bullets).length :=
          List.length_filter_le _ _
      _ = g.bullets.length := List.length_map _ _
  · intro hc
    show (0:ℤ) ≤ if g.shoot_cooldown > 0 then g.shoot_cooldown - 1 else g.shoot_cooldown
    split <;> omega

theorem powerUpStep_untouched (st : Game × List PowerUp) (p : PowerUp) :
    (powerUpStep st p).1.lives = st.1.lives ∧
    (powerUpStep st p).1.game_over = st.1.game_over ∧
    (powerUpStep st p).1.bullets = st.1.bullets ∧
    (powerUpStep st p).1.max_bullets = st.1.max_bullets ∧
    (powerUpStep st p).1.shoot_cooldown = st.1.shoot_cooldown := by
  unfold powerUpStep
  by_cases h1 : ({ p with y := p.y + p.speed } : PowerUp).y > SCREEN_HEIGHT
  · rw [if_pos h1]; exact ⟨rfl, rfl, rfl, rfl, rfl⟩
  · rw [if_neg h1]
    by_cases h2 : is_collision ({ p with y := p.y + p.speed } : PowerUp).x
        ({ p with y := p.y + p.speed } : PowerUp).y st.1.playerX st.1.playerY 40 = true
    · rw [if_pos h2]
      by_cases h3 : ({ p with y := p.y + p.speed } : PowerUp).ptype = 0
      · rw [if_pos h3]; exact ⟨rfl, rfl, rfl, rfl, rfl⟩
      · rw [if_neg h3]; exact ⟨rfl, rfl, rfl, rfl, rfl⟩
    · rw [if_neg h2]; exact ⟨rfl, rfl, rfl, rfl, rfl⟩

theorem update_power_ups_untouched (g : Game) :
    (update_power_ups g).lives = g.lives ∧
    (update_power_ups g).game_over = g.game_over ∧
    (update_power_ups g).bullets = g.bullets ∧
    (update_power_ups g).max_bullets = g.max_bullets ∧
    (update_power_ups g).shoot_cooldown = g.shoot_cooldown := by
  unfold update_power_ups
  have hfold := foldl_preserve powerUpStep
    (P := fun st => st.1.lives = g.lives ∧ st.1.game_over = g.game_over ∧
      st.1.bullets = g.bullets ∧ st.1.max_bullets = g.max_bullets ∧
      st.1.shoot_cooldown = g.shoot_cooldown)
    (fun st p hp => by
      have h := powerUpStep_untouched st p
      exact ⟨h.1.trans hp.1, h.2.1.trans hp.2.1, h.2.2.1.trans hp.2.2.1,
        h.2.2.2.1.trans hp.2.2.2.1, h.2.2.2.2.trans hp.2.2.2.2⟩)
    g.power_ups (g, []) ⟨rfl, rfl, rfl, rfl, rfl⟩
  exact hfold

theorem create_bullet_fires {g : Game}
    (h : g.shoot_cooldown ≤ 0 ∧
      (g.bullets.length : ℤ) < (if g.rapid_fire_timer > 0 then 5 else g.max_bullets)) :
    create_bullet g =
      { g with bullets := g.bullets ++ [{ x := g.playerX, y := g.playerY, speed := BULLET_SPEED }],
               shoot_cooldown := if g.rapid_fire_timer > 0 then 5 else 15 } := by
  unfold create_bullet
  exact if_pos h

theorem create_bullet_noop {g : Game}
    (h : ¬ (g.shoot_cooldown ≤ 0 ∧
      (g.bullets.length : ℤ) < (if g.rapid_fire_timer > 0 then 5 else g.max_bullets))) :
    create_bullet g = g := by
  unfold create_bullet
  exact if_neg h

theorem create_bullet_inv (g : Game) :
    (create_bullet g).lives = g.lives ∧
    (create_bullet g).game_over = g.game_over ∧
    (create_bullet g).max_bullets = g.max_bullets ∧
    (0 ≤ g.shoot_cooldown → 0 ≤ (create_bullet g).shoot_cooldown) ∧
    (g.max_bullets = 3 → g.bullets.length ≤ 5 → (create_bullet g).bullets.length ≤ 5) := by
  by_cases h : g.shoot_cooldown ≤ 0 ∧
      (g.bullets.length : ℤ) < (if g.rapid_fire_timer > 0 then 5 else g.max_bullets)
  · rw [create_bullet_fires h]
    refine ⟨rfl, rfl, rfl, ?_, ?_⟩
    · intro _; show (0:ℤ) ≤ if g.rapid_fire_timer > 0 then 5 else 15; split <;> omega
    · intro hm _
      show (g.bullets ++ [_]).length ≤ 5
      rw [List.length_append]
      rw [hm] at h
      rcases h with ⟨-, hlt⟩
      split at hlt <;> simp <;> omega
  · rw [create_bullet_noop h]
    exact ⟨rfl, rfl, rfl, fun hh => hh, fun _ hh => hh⟩

/-! ## The tick-level invariant -/

/-- State facts every reachable world satisfies: the game-over flag tracks
the loss of the last life, the flag is only up in GAME_OVER mode, the
configured bullet cap is the constant 3, the cooldown never goes negative
and at most 5 bullets are ever live. -/
def Inv (w : World) : Prop :=
  (w.game.game_over = false → 1 ≤ w.game.lives) ∧
  (w.game_state ≠ GAME_OVER → w.game.game_over = false) ∧
  w.game.max_bullets = 3 ∧
  0 ≤ w.game.shoot_cooldown ∧
  w.game.bullets.length ≤ 5

theorem inv_reset (d : ℕ → SpawnDraw) (m : ℕ) (hm : m ≠ GAME_OVER) :
    Inv ⟨m, reset_game d⟩ := by
  obtain ⟨-, -, -, h4, -, -, h7, -, -, -, -, -, h13, h14, h15, -, -⟩ := reset_game_values d
  refine ⟨fun _ => ?_, fun _ => ?_, ?_, ?_, ?_⟩
  · show (1:ℤ) ≤ (reset_game d).lives; omega
  · exact h7
  · exact h15
  · show (0:ℤ) ≤ (reset_game d).shoot_cooldown; omega
  · show (reset_game d).bullets.length ≤ 5; rw [h13]; simp

theorem handle_menu_input_inv (rs : ℕ → SpawnDraw) :
    ∀ (evs : List Ev) (w : World) (k : ℕ), Inv w →
      Inv (handle_menu_input rs w evs k).1 := by
  intro evs
  induction evs with
  | nil => intro w k h; exact h
  | cons ev rest ih =>
      intro w k h
      cases ev with
      | quit => exact h
      | key kk =>
          cases kk with
          | space =>
              exact ih ⟨PLAYING, reset_game fun i => rs (4 * k + i)⟩ (k + 1)
                (inv_reset _ PLAYING (by decide))
          | escape => exact h
          | rkey => exact ih w k h
          | other => exact ih w k h

theorem handle_game_over_input_inv (rs : ℕ → SpawnDraw) :
    ∀ (evs : List Ev) (w : World) (k : ℕ), Inv w →
      Inv (handle_game_over_input rs w evs k).1 := by
  intro evs
  induction evs with
  | nil => intro w k h; exact h
  | cons ev rest ih =>
      intro w k h
      cases ev with
      | quit => exact h
      | key kk =>
          cases kk with
          | rkey =>
              exact ih ⟨PLAYING, reset_game fun i => rs (4 * k + i)⟩ (k + 1)
                (inv_reset _ PLAYING (by decide))
          | escape => exact h
          | space => exact ih w k h
          | other => exact ih w k h

theorem handle_game_events_spec :
    ∀ (evs : List Ev) (w : World),
      (handle_game_events w evs).1.game.lives = w.game.lives ∧
      (handle_game_events w evs).1.game.game_over = w.game.game_over ∧
      (handle_game_events w evs).1.game.max_bullets = w.game.max_bullets ∧
      (0 ≤ w.game.shoot_cooldown → 0 ≤ (handle_game_events w evs).1.game.shoot_cooldown) ∧
      (w.game.max_bullets = 3 → w.game.bullets.length ≤ 5 →
        (handle_game_events w evs).1.game.bullets.length ≤ 5) ∧
      (w.game_state ≠ GAME_OVER → (handle_game_events w evs).1.game_state ≠ GAME_OVER) := by
  intro evs
  induction evs with
  | nil => intro w; exact ⟨rfl, rfl, rfl, fun h => h, fun _ h => h, fun h => h⟩
  | cons ev rest ih =>
      intro w
      cases ev with
      | quit => exact ⟨rfl, rfl, rfl, fun h => h, fun _ h => h, fun h => h⟩
      | key kk =>
          cases kk with
          | space =>
              have hc := create_bullet_inv w.game
              have hr := ih ⟨w.game_state, create_bullet w.game⟩
              refine ⟨hr.1.trans hc.1, hr.2.1.trans hc.2.1, hr.2.2.1.trans hc.2.2.1,
                ?_, ?_, hr.2.2.2.2.2⟩
              · intro h0
                exact hr.2.2.2.1 (hc.2.2.2.1 h0)
              · intro hm hb
                exact hr.2.2.2.2.1 (hc.2.2.1.trans hm) (hc.2.2.2.2 hm hb)
          | escape =>
              have hr := ih ⟨MENU, w.game⟩
              exact ⟨hr.1, hr.2.1, hr.2.2.1, hr.2.2.2.1, hr.2.2.2.2.1,
                fun _ => hr.2.2.2.2.2 (show MENU ≠ GAME_OVER by decide)⟩
          | rkey => exact ih w
          | other => exact ih w

theorem handle_game_input_spec (w : World) (inp : Input) :
    (handle_game_input w inp).1.game.lives = w.game.lives ∧
    (handle_game_input w inp).1.game.game_over = w.game.game_over ∧
    (handle_game_input w inp).1.game.max_bullets = w.game.max_bullets ∧
    (0 ≤ w.game.shoot_cooldown → 0 ≤ (handle_game_input w inp).1.game.shoot_cooldown) ∧
    (w.game.max_bullets = 3 → w.game.bullets.length ≤ 5 →
      (handle_game_input w inp).1.game.bullets.length ≤ 5) ∧
    (w.game_state ≠ GAME_OVER → (handle_game_input w inp).1.game_state ≠ GAME_OVER) := by
  have he := handle_game_events_spec inp.events w
  unfold handle_game_input
  by_cases hr : (handle_game_events w inp.events).2 = true
  · rw [if_pos hr]; exact he
  · rw [if_neg hr]; exact he

theorem liveOk_inv_clauses {m0 : ℕ} {w : World} (h : LiveOk m0 w) :
    (w.game.game_over = false → 1 ≤ w.game.lives) ∧
    (w.game_state ≠ GAME_OVER → w.game.game_over = false) := by
  rcases h with ⟨hf, hm, hl⟩ | ⟨hf, hm, hl⟩
  · exact ⟨fun _ => hl, fun _ => hf⟩
  · exact ⟨fun hc => (by rw [hf] at hc; cases hc), fun hc => absurd hm hc⟩

/-- The whole simulation phase of a PLAYING tick (the five subsystem updates
run when the game-over flag is down), as one function. -/
def simPhase (w : World) (o : Oracle) : World :=
  update_obstacles
    (update_enemies
      ⟨w.game_state, update_power_ups (update_bullets (update_player w.game))⟩ o) o

theorem simPhase_spec (m0 : ℕ) (w : World) (o : Oracle)
    (hgo : w.game.game_over = false) (hlv : 1 ≤ w.game.lives)
    (hm : w.game_state = m0) :
    LiveOk m0 (simPhase w o) ∧
    (simPhase w o).game.bullets.length ≤ w.game.bullets.length ∧
    (simPhase w o).game.max_bullets = w.game.max_bullets ∧
    (0 ≤ w.game.shoot_cooldown → 0 ≤ (simPhase w o).game.shoot_cooldown) := by
  have hp := update_player_untouched w.game
  have hb := update_bullets_spec (update_player w.game)
  have hu := update_power_ups_untouched (update_bullets (update_player w.game))
  set gP := update_power_ups (update_bullets (update_player w.game)) with hgP
  have hstart : LiveOk m0 ⟨w.game_state, gP⟩ := by
    refine Or.inl ⟨?_, hm, ?_⟩
    · show gP.game_over = false
      rw [hu.2.1, hb.2.1, hp.2.1, hgo]
    · show (1:ℤ) ≤ gP.lives
      rw [hu.1, hb.1, hp.1]
      exact hlv
  have he := update_enemies_spec m0 ⟨w.game_state, gP⟩ o hstart
  have ho := update_obstacles_spec m0 (update_enemies ⟨w.game_state, gP⟩ o) o he.1
  refine ⟨ho.1, ?_, ?_, ?_⟩
  · have h1 : gP.bullets.length ≤ w.game.bullets.length := by
      rw [hu.2.2.1]
      calc (update_bullets (update_player w.game)).bullets.length
          ≤ (update_player w.game).bullets.length := hb.2.2.2.1
        _ = w.game.bullets.length := by rw [hp.2.2.1]
    calc (simPhase w o).game.bullets.length
        ≤ (update_enemies ⟨w.game_state, gP⟩ o).game.bullets.length := ho.2.1
      _ ≤ gP.bullets.length := he.2.1
      _ ≤ w.game.bullets.length := h1
  · have h5 : (simPhase w o).game.max_bullets = gP.max_bullets :=
      ho.2.2.1.trans he.2.2.1
    rw [h5, hu.2.2.2.1, hb.2.2.1, hp.2.2.2.1]
  · intro h0
    have h5 : (simPhase w o).game.shoot_cooldown = gP.shoot_cooldown :=
      ho.2.2.2.trans he.2.2.2
    rw [h5, hu.2.2.2.2]
    exact hb.2.2.2.2 (by rw [hp.2.2.2.2.1]; exact h0)

theorem tick_inv (w : World) (inp : Input) (o : Oracle) (h : Inv w) :
    Inv (tick w inp o).1 := by
  unfold tick
  by_cases hM : w.game_state = MENU
  · rw [if_pos hM]
    exact handle_menu_input_inv o.resetSpawns inp.events w 0 h
  · rw [if_neg hM]
    by_cases hP : w.game_state = PLAYING
    · rw [if_pos hP]
      have hin := handle_game_input_spec w inp
      have hmode : (handle_game_input w inp).1.game_state ≠ GAME_OVER :=
        hin.2.2.2.2.2 (by rw [hP]; decide)
      by_cases hgo : (handle_game_input w inp).1.game.game_over = true
      · exfalso
        have hwgo : w.game.game_over = false := h.2.1 (by rw [hP]; decide)
        rw [hin.2.1, hwgo] at hgo
        cases hgo
      · rw [if_pos (by simp [hgo])]
        have hgo' : (handle_game_input w inp).1.game.game_over = false := by
          cases hcase : (handle_game_input w inp).1.game.game_over
          · rfl
          · exact absurd hcase hgo
        have hwgo : w.game.game_over = false := hin.2.1.symm.trans hgo'
        have hlv : (1:ℤ) ≤ (handle_game_input w inp).1.game.lives := by
          rw [hin.1]
          exact h.1 hwgo
        have hs := simPhase_spec (handle_game_input w inp).1.game_state
          (handle_game_input w inp).1 o hgo' hlv rfl
        have hcl := liveOk_inv_clauses hs.1
        refine ⟨hcl.1, hcl.2, ?_, ?_, ?_⟩
        · exact hs.2.2.1.trans (hin.2.2.1.trans h.2.2.1)
        · exact hs.2.2.2 (hin.2.2.2.1 h.2.2.2.1)
        · calc (simPhase (handle_game_input w inp).1 o).game.bullets.length
              ≤ (handle_game_input w inp).1.game.bullets.length := hs.2.1
            _ ≤ 5 := hin.2.2.2.2.1 h.2.2.1 h.2.2.2.2
    · rw [if_neg hP]
      by_cases hG : w.game_state = GAME_OVER
      · rw [if_pos hG]
        exact handle_game_over_input_inv o.resetSpawns inp.events w 0 h
      · rw [if_neg hG]
        exact h

theorem reachable_inv {w : World} (h : Reachable w) : Inv w := by
  induction h with
  | init d hd => exact inv_reset d MENU (by decide)
  | step inp o ho hw ih => exact tick_inv _ inp o ih

theorem tick_playing_gameover_iff (w : World) (inp : Input) (o : Oracle)
    (h : Inv w) (hP : w.game_state = PLAYING) :
    ((tick w inp o).1.game_state = GAME_OVER ↔ (tick w inp o).1.game.lives ≤ 0) := by
  unfold tick
  rw [if_neg (by rw [hP]; decide), if_pos hP]
  have hin := handle_game_input_spec w inp
  have hwgo : w.game.game_over = false := h.2.1 (by rw [hP]; decide)
  have hgo' : (handle_game_input w inp).1.game.game_over = false := hin.2.1.trans hwgo
  rw [if_pos (by simp [hgo'])]
  show (simPhase (handle_game_input w inp).1 o).game_state = GAME_OVER ↔
    (simPhase (handle_game_input w inp).1 o).game.lives ≤ 0
  have hlv : (1:ℤ) ≤ (handle_game_input w inp).1.game.lives := by
    rw [hin.1]; exact h.1 hwgo
  have hs := simPhase_spec (handle_game_input w inp).1.game_state
    (handle_game_input w inp).1 o hgo' hlv rfl
  have hm1 : (handle_game_input w inp).1.game_state ≠ GAME_OVER :=
    hin.2.2.2.2.2 (by rw [hP]; decide)
  rcases hs.1 with ⟨hf, hmm, hl⟩ | ⟨hf, hmm, hl⟩
  · constructor
    · intro hc; rw [hmm] at hc; exact absurd hc hm1
    · intro hc; omega
  · exact ⟨fun _ => hl, fun _ => hmm⟩

/-! ## Handler behaviour lemmas for the restart and back-to-menu claims -/

/-- What every restart resets: score 0, level 1, lives 3 and exactly the
four initial enemies. -/
def ResetSpec (g : Game) : Prop :=
  g.score_value = 0 ∧ g.level = 1 ∧ g.lives = 3 ∧ g.enemies.length = 4

theorem resetSpec_reset (d : ℕ → SpawnDraw) : ResetSpec (reset_game d) := by
  have h := reset_game_values d
  exact ⟨h.2.2.2.2.1, h.2.2.2.2.2.1, h.2.2.2.1, reset_game_enemy_count d⟩

theorem handle_menu_input_resetSpec (rs : ℕ → SpawnDraw) :
    ∀ (evs : List Ev) (w : World) (k : ℕ),
      (w.game_state = PLAYING → ResetSpec w.game) →
      (handle_menu_input rs w evs k).1.game_state = PLAYING →
      ResetSpec (handle_menu_input rs w evs k).1.game := by
  intro evs
  induction evs with
  | nil => intro w k h; exact h
  | cons ev rest ih =>
      intro w k h
      cases ev with
      | quit => exact h
      | key kk =>
          cases kk with
          | space =>
              exact ih ⟨PLAYING, reset_game fun i => rs (4 * k + i)⟩ (k + 1)
                (fun _ => resetSpec_reset fun i => rs (4 * k + i))
          | escape => exact h
          | rkey => exact ih w k h
          | other => exact ih w k h

theorem handle_game_over_input_resetSpec (rs : ℕ → SpawnDraw) :
    ∀ (evs : List Ev) (w : World) (k : ℕ),
      (w.game_state = PLAYING → ResetSpec w.game) →
      (handle_game_over_input rs w evs k).1.game_state = PLAYING →
      ResetSpec (handle_game_over_input rs w evs k).1.game := by
  intro evs
  induction evs with
  | nil => intro w k h; exact h
  | cons ev rest ih =>
      intro w k h
      cases ev with
      | quit => exact h
      | key kk =>
          cases kk with
          | rkey =>
              exact ih ⟨PLAYING, reset_game fun i => rs (4 * k + i)⟩ (k + 1)
                (fun _ => resetSpec_reset fun i => rs (4 * k + i))
          | escape => exact h
          | space => exact ih w k h
          | other => exact ih w k h

theorem handle_game_over_input_no_restart (rs : ℕ → SpawnDraw) :
    ∀ (evs : List Ev) (w : World) (k : ℕ), Ev.key Key.rkey ∉ evs →
      (handle_game_over_input rs w evs k).1 = w := by
  intro evs
  induction evs with
  | nil => intro w k hn; rfl
  | cons ev rest ih =>
      intro w k hn
      cases ev with
      | quit => rfl
      | key kk =>
          cases kk with
          | rkey => exact absurd (List.mem_cons_self _ _) hn
          | escape => rfl
          | space => exact ih w k (fun hc => hn (List.mem_cons_of_mem _ hc))
          | other => exact ih w k (fun hc => hn (List.mem_cons_of_mem _ hc))

/-- In the in-game event loop, with no SPACE and no QUIT in the queue, the
game data is untouched, and the mode ends MENU exactly when an ESC occurs. -/
theorem handle_game_events_no_space :
    ∀ (evs : List Ev) (w : World), Ev.key Key.space ∉ evs → Ev.quit ∉ evs →
      (handle_game_events w evs).1.game = w.game ∧
      (handle_game_events w evs).2 = true ∧
      (handle_game_events w evs).1.game_state =
        (if Ev.key Key.escape ∈ evs then MENU else w.game_state) := by
  intro evs
  induction evs with
  | nil => intro w hs hq; exact ⟨rfl, rfl, by simp [handle_game_events]⟩
  | cons ev rest ih =>
      intro w hs hq
      cases ev with
      | quit => exact absurd (List.mem_cons_self _ _) hq
      | key kk =>
          cases kk with
          | space => exact absurd (List.mem_cons_self _ _) hs
          | escape =>
              have hr := ih ⟨MENU, w.game⟩ (fun hc => hs (List.mem_cons_of_mem _ hc))
                (fun hc => hq (List.mem_cons_of_mem _ hc))
              refine ⟨hr.1, hr.2.1, ?_⟩
              show (handle_game_events ⟨MENU, w.game⟩ rest).1.game_state = _
              rw [hr.2.2]
              simp
          | rkey =>
              have hr := ih w (fun hc => hs (List.mem_cons_of_mem _ hc))
                (fun hc => hq (List.mem_cons_of_mem _ hc))
              refine ⟨hr.1, hr.2.1, ?_⟩
              show (handle_game_events w rest).1.game_state = _
              rw [hr.2.2]
              simp
          | other =>
              have hr := ih w (fun hc => hs (List.mem_cons_of_mem _ hc))
                (fun hc => hq (List.mem_cons_of_mem _ hc))
              refine ⟨hr.1, hr.2.1, ?_⟩
              show (handle_game_events w rest).1.game_state = _
              rw [hr.2.2]
              simp

unseal Rat.add Rat.mul Rat.sub Rat.inv

/-! ## A concrete play session that ends the game (for claims C1 and C2)

All four initial enemies spawn at the left edge (y = 200, uniform draw 1.2).
While an enemy's x stays ≤ 0 it steps down 30 + 1.2 pixels per tick, so all
four cross the player-zone line y > 440 on the same tick: the ninth PLAYING
tick then decrements lives four times, 3 → -1, setting GAME_OVER on the
third decrement and continuing the loop regardless. -/

def edgeDraw : SpawnDraw :=
  { typeChoice := 0, sideChoice := 1, u := 6/5, xTop := 0, yTop := -60,
    yEdge := 200, dirRight := true }

def edgeOracle : Oracle :=
  { spawn := edgeDraw, obs := { speedD := 8, x := 0 }, drops := fun _ => false,
    resetSpawns := fun _ => edgeDraw }

def startInput : Input := { events := [Ev.key Key.space], leftHeld := false, rightHeld := false }

def nullInput : Input := { events := [], leftHeld := false, rightHeld := false }

def edgeInput (n : ℕ) : Input := if n = 1 then startInput else nullInput

/-- The session: module start, SPACE on the first frame, then no input. -/
def edgeTrace : ℕ → World
  | 0 => ⟨MENU, reset_game fun _ => edgeDraw⟩
  | n + 1 => (tick (edgeTrace n) (edgeInput (n + 1)) edgeOracle).1

theorem edgeOracle_valid : ValidOracle edgeOracle :=
  ⟨by decide, by decide, fun n => show ValidSpawn edgeDraw by decide⟩

theorem edgeTrace_reachable : ∀ n, Reachable (edgeTrace n)
  | 0 => Reachable.init _ (fun n => show ValidSpawn edgeDraw by decide)
  | n + 1 => Reachable.step (edgeInput (n + 1)) edgeOracle edgeOracle_valid
      (edgeTrace_reachable n)

/-- Claim C1, counterexample: the lives counter of a reachable state can be
below 0.  In the tenth frame of the session above, four enemies breach the
player zone in the same update_enemies pass; each one decrements lives, the
loop does not stop once the game is over, and lives end at -1. -/
theorem C1_counterexample :
    Reachable (edgeTrace 10) ∧ (edgeTrace 10).game.lives < 0 :=
  ⟨edgeTrace_reachable 10, by decide⟩

/-- Claim C1, amended: in every reachable state whose mode is not GAME_OVER
the lives counter is positive (it can drop below 0 only inside the frame
that ends the game), and a frame from a reachable PLAYING state moves the
mode to GAME_OVER exactly when lives end that frame at 0 or below. -/
theorem C1_amended (w : World) (hw : Reachable w) :
    (w.game_state ≠ GAME_OVER → 0 < w.game.lives) ∧
    (w.game_state = PLAYING → ∀ (inp : Input) (o : Oracle),
      ((tick w inp o).1.game_state = GAME_OVER ↔ (tick w inp o).1.game.lives ≤ 0)) := by
  have h := reachable_inv hw
  refine ⟨fun hm => ?_, fun hP inp o => tick_playing_gameover_iff w inp o h hP⟩
  have := h.1 (h.2.1 hm)
  omega

theorem C1_amended_witness :
    ((edgeTrace 9).game_state ≠ GAME_OVER → 0 < (edgeTrace 9).game.lives) ∧
    ((tick (edgeTrace 9) nullInput edgeOracle).1.game_state = GAME_OVER ↔
      (tick (edgeTrace 9) nullInput edgeOracle).1.game.lives ≤ 0) :=
  ⟨(C1_amended (edgeTrace 9) (edgeTrace_reachable 9)).1,
   (C1_amended (edgeTrace 9) (edgeTrace_reachable 9)).2 (by decide) nullInput edgeOracle⟩

/-- The state in the middle of the game-ending frame, directly after
update_enemies set the game-over flag and before update_obstacles runs. -/
def gameOverMid : World :=
  update_enemies
    ⟨(handle_game_input (edgeTrace 9) (edgeInput 10)).1.game_state,
     update_power_ups
       (update_bullets (update_player (handle_game_input (edgeTrace 9) (edgeInput 10)).1.game))⟩
    edgeOracle

/-- Claim C2, counterexample: inside the frame in which lives hit 0 and the
game-over flag is set (by update_enemies), update_obstacles still runs and
still changes the simulation state — the frame's final state is the
obstacle update applied to the flag-set midpoint, and it differs from that
midpoint. -/
theorem C2_counterexample :
    Reachable (edgeTrace 9) ∧
    (edgeTrace 9).game_state = PLAYING ∧ (edgeTrace 9).game.game_over = false ∧
    gameOverMid.game.game_over = true ∧
    (tick (edgeTrace 9) (edgeInput 10) edgeOracle).1 = update_obstacles gameOverMid edgeOracle ∧
    update_obstacles gameOverMid edgeOracle ≠ gameOverMid :=
  ⟨edgeTrace_reachable 9, by decide, by decide, by decide, by decide, by decide⟩

/-- Claim C2, amended: from the frame after the flag is set, no simulation
update applies until restart — in GAME_OVER mode an input without a restart
keypress leaves the whole state unchanged, and a restart keypress resets
the game and returns to PLAYING; the remaining subsystem updates of the
flag-setting frame itself still execute. -/
theorem C2_amended (w : World) (inp : Input) (o : Oracle)
    (hm : w.game_state = GAME_OVER) :
    (Ev.key Key.rkey ∉ inp.events → (tick w inp o).1 = w) ∧
    (inp.events = [Ev.key Key.rkey] →
      (tick w inp o).1 = ⟨PLAYING, reset_game fun i => o.resetSpawns (4 * 0 + i)⟩) := by
  unfold tick
  rw [if_neg (by rw [hm]; decide), if_neg (by rw [hm]; decide), if_pos hm]
  constructor
  · intro hn
    exact handle_game_over_input_no_restart o.resetSpawns inp.events w 0 hn
  · intro he
    rw [he]
    rfl

theorem C2_amended_witness :
    (edgeTrace 10).game_state = GAME_OVER ∧
    (tick (edgeTrace 10) nullInput edgeOracle).1 = edgeTrace 10 ∧
    (tick (edgeTrace 10) { events := [Ev.key Key.rkey], leftHeld := false, rightHeld := false }
        edgeOracle).1 =
      ⟨PLAYING, reset_game fun i => edgeOracle.resetSpawns (4 * 0 + i)⟩ :=
  ⟨by decide,
   (C2_amended (edgeTrace 10) nullInput edgeOracle (by decide)).1 (by decide),
   (C2_amended (edgeTrace 10)
     { events := [Ev.key Key.rkey], leftHeld := false, rightHeld := false }
     edgeOracle (by decide)).2 rfl⟩

/-! ## A concrete play session exercising rapid fire (for claim C3)

One enemy spawns over the player's reachable column and is shot at frame
63; its 15% drop roll succeeds, the power-up falls to the player and is
picked up at frame 276, setting the rapid-fire timer to 300.  Four bullets
are fired at frames 557, 562, 567 and 572, while the timer is still
positive; the timer reaches 0 at the end of frame 576 with all four
bullets still on screen. -/

def mainDraw : SpawnDraw :=
  { typeChoice := 0, sideChoice := 0, u := 6/5, xTop := 368, yTop := -60,
    yEdge := 60, dirRight := true }

def parkedDraw : SpawnDraw :=
  { typeChoice := 0, sideChoice := 0, u := 2/5, xTop := 0, yTop := -140,
    yEdge := 60, dirRight := true }

def waveDraw : SpawnDraw :=
  { typeChoice := 0, sideChoice := 0, u := 2/5, xTop := 700, yTop := -140,
    yEdge := 60, dirRight := true }

def rapidOracle : Oracle :=
  { spawn := waveDraw, obs := { speedD := 14, x := 700 }, drops := fun _ => true,
    resetSpawns := fun i => if i = 0 then mainDraw else parkedDraw }

def rapidInput (m : ℕ) : Input :=
  if m = 1 then startInput
  else if m ≤ 19 then { events := [], leftHeld := false, rightHeld := true }
  else if m = 20 then startInput
  else if m = 557 ∨ m = 562 ∨ m = 567 ∨ m = 572 then startInput
  else nullInput

def rapidTrace : ℕ → World
  | 0 => ⟨MENU, reset_game fun i => if i = 0 then mainDraw else parkedDraw⟩
  | n + 1 => (tick (rapidTrace n) (rapidInput (n + 1)) rapidOracle).1

/-- One frame of the rapid-fire session, by frame number. -/
def stepFrom (m : ℕ) (w : World) : World := (tick w (rapidInput m) rapidOracle).1

/-- Frames base+1 .. base+k of the rapid-fire session, starting from w. -/
def runFrom : ℕ → ℕ → World → World
  | _, 0, w => w
  | b, k + 1, w => runFrom (b + 1) k (stepFrom (b + 1) w)

theorem rapidTrace_runFrom (b k : ℕ) : rapidTrace (b + k) = runFrom b k (rapidTrace b) := by
  induction k generalizing b with
  | zero => rfl
  | succ k ih =>
      have h1 : b + (k + 1) = (b + 1) + k := by omega
      rw [h1, ih (b + 1)]
      rfl

/-! Intermediate states of the session, computed every 96 frames (the
evaluation is split into chunks to keep each kernel reduction shallow). -/

def rapidM96 : World :=
{ game_state := 1,
  game := { playerX := 494,
            playerY := 480,
            playerX_change := 0,
            lives := 3,
            score_value := 10,
            level := 1,
            game_over := false,
            difficulty_multiplier := 1,
            enemies := [{ x := 190,
                          y := -102,
                          x_change := 2,
                          y_change := 30,
                          fall_speed := (2 : Rat)/5,
                          etype := 0,
                          health := 1,
                          max_health := 1,
                          points := 10 },
                        { x := 190,
                          y := -102,
                          x_change := 2,
                          y_change := 30,
                          fall_speed := (2 : Rat)/5,
                          etype := 0,
                          health := 1,
                          max_health := 1,
                          points := 10 },
                        { x := 190,
                          y := -102,
                          x_change := 2,
                          y_change := 30,
                          fall_speed := (2 : Rat)/5,
                          etype := 0,
                          health := 1,
                          max_health := 1,
                          points := 10 }],
            enemy_spawn_timer := 95,
            max_enemies_on_screen := 6,
            obstacles := [{ x := 700, y := 130, w := 20, h := 20, speed := 14, color := (200, 180, 60) }],
            obstacle_spawn_timer := 10,
            bullets := [],
            shoot_cooldown := 0,
            max_bullets := 3,
            rapid_fire_timer := 0,
            power_ups := [{ x := 492, y := (402 : Rat)/5, ptype := 0, speed := 2 }] } }

def rapidM192 : World :=
{ game_state := 1,
  game := { playerX := 494,
            playerY := 480,
            playerX_change := 0,
            lives := 3,
            score_value := 10,
            level := 1,
            game_over := false,
            difficulty_multiplier := 1,
            enemies := [{ x := 382,
                          y := (-318 : Rat)/5,
                          x_change := 2,
                          y_change := 30,
                          fall_speed := (2 : Rat)/5,
                          etype := 0,
                          health := 1,
                          max_health := 1,
                          points := 10 },
                        { x := 382,
                          y := (-318 : Rat)/5,
                          x_change := 2,
                          y_change := 30,
                          fall_speed := (2 : Rat)/5,
                          etype := 0,
                          health := 1,
                          max_health := 1,
                          points := 10 },
                        { x := 382,
                          y := (-318 : Rat)/5,
                          x_change := 2,
                          y_change := 30,
                          fall_speed := (2 : Rat)/5,
                          etype := 0,
                          health := 1,
                          max_health := 1,
                          points := 10 },
                        { x := 608,
                          y := (-386 : Rat)/5,
                          x_change := -2,
                          y_change := 30,
                          fall_speed := (2 : Rat)/5,
                          etype := 0,
                          health := 1,
                          max_health := 1,
                          points := 10 }],
            enemy_spawn_timer := 81,
            max_enemies_on_screen := 6,
            obstacles := [{ x := 700, y := 284, w := 20, h := 20, speed := 14, color := (200, 180, 60) }],
            obstacle_spawn_timer := 21,
            bullets := [],
            shoot_cooldown := 0,
            max_bullets := 3,
            rapid_fire_timer := 0,
            power_ups := [{ x := 492, y := (1362 : Rat)/5, ptype := 0, speed := 2 }] } }

def rapidM288 : World :=
{ game_state := 1,
  game := { playerX := 494,
            playerY := 480,
            playerX_change := 0,
            lives := 3,
            score_value := 10,
            level := 1,
            game_over := false,
            difficulty_multiplier := 1,
            enemies := [{ x := 574,
                          y := (-126 : Rat)/5,
                          x_change := 2,
                          y_change := 30,
                          fall_speed := (2 : Rat)/5,
                          etype := 0,
                          health := 1,
                          max_health := 1,
                          points := 10 },
                        { x := 574,
                          y := (-126 : Rat)/5,
                          x_change := 2,
                          y_change := 30,
                          fall_speed := (2 : Rat)/5,
                          etype := 0,
                          health := 1,
                          max_health := 1,
                          points := 10 },
                        { x := 574,
                          y := (-126 : Rat)/5,
                          x_change := 2,
                          y_change := 30,
                          fall_speed := (2 : Rat)/5,
                          etype := 0,
                          health := 1,
                          max_health := 1,
                          points := 10 },
                        { x := 416,
                          y := (-194 : Rat)/5,
                          x_change := -2,
                          y_change := 30,
                          fall_speed := (2 : Rat)/5,
                          etype := 0,
                          health := 1,
                          max_health := 1,
                          points := 10 },
                        { x := 636,
                          y := (-414 : Rat)/5,
                          x_change := -2,
                          y_change := 30,
                          fall_speed := (2 : Rat)/5,
                          etype := 0,
                          health := 1,
                          max_health := 1,
                          points := 10 }],
            enemy_spawn_timer := 67,
            max_enemies_on_screen := 6,
            obstacles := [{ x := 700, y := 438, w := 20, h := 20, speed := 14, color := (200, 180, 60) }],
            obstacle_spawn_timer := 32,
            bullets := [],
            shoot_cooldown := 0,
            max_bullets := 3,
            rapid_fire_timer := 288,
            power_ups := [] } }

def rapidM384 : World :=
{ game_state := 1,
  game := { playerX := 494,
            playerY := 480,
            playerX_change := 0,
            lives := 3,
            score_value := 10,
            level := 1,
            game_over := false,
            difficulty_multiplier := 1,
            enemies := [{ x := 706,
                          y := (216 : Rat)/5,
                          x_change := -2,
                          y_change := 30,
                          fall_speed := (2 : Rat)/5,
                          etype := 0,
                          health := 1,
                          max_health := 1,
                          points := 10 },
                        { x := 706,
                          y := (216 : Rat)/5,
                          x_change := -2,
                          y_change := 30,
                          fall_speed := (2 : Rat)/5,
                          etype := 0,
                          health := 1,
                          max_health := 1,
                          points := 10 },
                        { x := 706,
                          y := (216 : Rat)/5,
                          x_change := -2,
                          y_change := 30,
                          fall_speed := (2 : Rat)/5,
                          etype := 0,
                          health := 1,
                          max_health := 1,
                          points := 10 },
                        { x := 224,
                          y := (-2 : Rat)/5,
                          x_change := -2,
                          y_change := 30,
                          fall_speed := (2 : Rat)/5,
                          etype := 0,
                          health := 1,
                          max_health := 1,
                          points := 10 },
                        { x := 444,
                          y := (-222 : Rat)/5,
                          x_change := -2,
                          y_change := 30,
                          fall_speed := (2 : Rat)/5,
                          etype := 0,
                          health := 1,
                          max_health := 1,
                          points := 10 },
                        { x := 664,
                          y := (-442 : Rat)/5,
                          x_change := -2,
                          y_change := 30,
                          fall_speed := (2 : Rat)/5,
                          etype := 0,
                          health := 1,
                          max_health := 1,
                          points := 10 }],
            enemy_spawn_timer := 53,
            max_enemies_on_screen := 6,
            obstacles := [{ x := 700, y := 592, w := 20, h := 20, speed := 14, color := (200, 180, 60) }],
            obstacle_spawn_timer := 43,
            bullets := [],
            shoot_cooldown := 0,
            max_bullets := 3,
            rapid_fire_timer := 192,
            power_ups := [] } }

def rapidM480 : World :=
{ game_state := 1,
  game := { playerX := 494,
            playerY := 480,
            playerX_change := 0,
            lives := 3,
            score_value := 10,
            level := 1,
            game_over := false,
            difficulty_multiplier := 1,
            enemies := [{ x := 514,
                          y := (408 : Rat)/5,
                          x_change := -2,
                          y_change := 30,
                          fall_speed := (2 : Rat)/5,
                          etype := 0,
                          health := 1,
                          max_health := 1,
                          points := 10 },
                        { x := 514,
                          y := (408 : Rat)/5,
                          x_change := -2,
                          y_change := 30,
                          fall_speed := (2 : Rat)/5,
                          etype := 0,
                          health := 1,
                          max_health := 1,
                          points := 10 },
                        { x := 514,
                          y := (408 : Rat)/5,
                          x_change := -2,
                          y_change := 30,
                          fall_speed := (2 : Rat)/5,
                          etype := 0,
                          health := 1,
                          max_health := 1,
                          points := 10 },
                        { x := 32,
                          y := 38,
                          x_change := -2,
                          y_change := 30,
                          fall_speed := (2 : Rat)/5,
                          etype := 0,
                          health := 1,
                          max_health := 1,
                          points := 10 },
                        { x := 252,
                          y := -6,
                          x_change := -2,
                          y_change := 30,
                          fall_speed := (2 : Rat)/5,
                          etype := 0,
                          health := 1,
                          max_health := 1,
                          points := 10 },
                        { x := 472,
                          y := -50,
                          x_change := -2,
                          y_change := 30,
                          fall_speed := (2 : Rat)/5,
                          etype := 0,
                          health := 1,
                          max_health := 1,
                          points := 10 }],
            enemy_spawn_timer := 39,
            max_enemies_on_screen := 6,
            obstacles := [],
            obstacle_spawn_timer := 54,
            bullets := [],
            shoot_cooldown := 0,
            max_bullets := 3,
            rapid_fire_timer := 96,
            power_ups := [] } }

def rapidM576 : World :=
{ game_state := 1,
  game := { playerX := 494,
            playerY := 480,
            playerX_change := 0,
            lives := 3,
            score_value := 10,
            level := 1,
            game_over := false,
            difficulty_multiplier := 1,
            enemies := [{ x := 322,
                          y := 120,
                          x_change := -2,
                          y_change := 30,
                          fall_speed := (2 : Rat)/5,
                          etype := 0,
                          health := 1,
                          max_health := 1,
                          points := 10 },
                        { x := 322,
                          y := 120,
                          x_change := -2,
                          y_change := 30,
                          fall_speed := (2 : Rat)/5,
                          etype := 0,
                          health := 1,
                          max_health := 1,
                          points := 10 },
                        { x := 322,
                          y := 120,
                          x_change := -2,
                          y_change := 30,
                          fall_speed := (2 : Rat)/5,
                          etype := 0,
                          health := 1,
                          max_health := 1,
                          points := 10 },
                        { x := 160,
                          y := (532 : Rat)/5,
                          x_change := 2,
                          y_change := 30,
                          fall_speed := (2 : Rat)/5,
                          etype := 0,
                          health := 1,
                          max_health := 1,
                          points := 10 },
                        { x := 60,
                          y := (162 : Rat)/5,
                          x_change := -2,
                          y_change := 30,
                          fall_speed := (2 : Rat)/5,
                          etype := 0,
                          health := 1,
                          max_health := 1,
                          points := 10 },
                        { x := 280,
                          y := (-58 : Rat)/5,
                          x_change := -2,
                          y_change := 30,
                          fall_speed := (2 : Rat)/5,
                          etype := 0,
                          health := 1,
                          max_health := 1,
                          points := 10 }],
            enemy_spawn_timer := 25,
            max_enemies_on_screen := 6,
            obstacles := [],
            obstacle_spawn_timer := 65,
            bullets := [{ x := 494, y := 280, speed := 10 },
                        { x := 494, y := 330, speed := 10 },
                        { x := 494, y := 380, speed := 10 },
                        { x := 494, y := 430, speed := 10 }],
            shoot_cooldown := 0,
            max_bullets := 3,
            rapid_fire_timer := 0,
            power_ups := [] } }

set_option maxRecDepth 40000 in
theorem rapidTrace_96 : rapidTrace 96 = rapidM96 := by
  have h : rapidTrace (0 + 96) = runFrom 0 96 (rapidTrace 0) := rapidTrace_runFrom 0 96
  norm_num at h
  rw [h]; decide

set_option maxRecDepth 40000 in
theorem rapidTrace_192 : rapidTrace 192 = rapidM192 := by
  have h : rapidTrace (96 + 96) = runFrom 96 96 (rapidTrace 96) := rapidTrace_runFrom 96 96
  norm_num [rapidTrace_96] at h
  rw [h]; decide

set_option maxRecDepth 40000 in
theorem rapidTrace_288 : rapidTrace 288 = rapidM288 := by
  have h : rapidTrace (192 + 96) = runFrom 192 96 (rapidTrace 192) := rapidTrace_runFrom 192 96
  norm_num [rapidTrace_192] at h
  rw [h]; decide

set_option maxRecDepth 40000 in
theorem rapidTrace_384 : rapidTrace 384 = rapidM384 := by
  have h : rapidTrace (288 + 96) = runFrom 288 96 (rapidTrace 288) := rapidTrace_runFrom 288 96
  norm_num [rapidTrace_288] at h
  rw [h]; decide

set_option maxRecDepth 40000 in
theorem rapidTrace_480 : rapidTrace 480 = rapidM480 := by
  have h : rapidTrace (384 + 96) = runFrom 384 96 (rapidTrace 384) := rapidTrace_runFrom 384 96
  norm_num [rapidTrace_384] at h
  rw [h]; decide

set_option maxRecDepth 40000 in
theorem rapidTrace_576 : rapidTrace 576 = rapidM576 := by
  have h : rapidTrace (480 + 96) = runFrom 480 96 (rapidTrace 480) := rapidTrace_runFrom 480 96
  norm_num [rapidTrace_480] at h
  rw [h]; decide

theorem rapidOracle_valid : ValidOracle rapidOracle := by
  refine ⟨by decide, by decide, fun n => ?_⟩
  show ValidSpawn (if n = 0 then mainDraw else parkedDraw)
  split
  · exact show ValidSpawn mainDraw by decide
  · exact show ValidSpawn parkedDraw by decide

theorem rapidTrace_reachable : ∀ n, Reachable (rapidTrace n)
  | 0 => Reachable.init _ (fun n => by
      show ValidSpawn (if n = 0 then mainDraw else parkedDraw)
      split
      · exact show ValidSpawn mainDraw by decide
      · exact show ValidSpawn parkedDraw by decide)
  | n + 1 => Reachable.step (rapidInput (n + 1)) rapidOracle rapidOracle_valid
      (rapidTrace_reachable n)

/-- Claim C3, counterexample: a reachable end-of-tick state with the
rapid-fire timer at 0 but four live bullets, exceeding the effective cap of
3.  The four bullets were fired during rapid fire and outlive the timer. -/
theorem C3_counterexample :
    Reachable (rapidTrace 576) ∧
    (rapidTrace 576).game.rapid_fire_timer = 0 ∧
    (rapidTrace 576).game.max_bullets = 3 ∧
    3 < (rapidTrace 576).game.bullets.length :=
  ⟨rapidTrace_reachable 576, by rw [rapidTrace_576]; decide,
   by rw [rapidTrace_576]; decide, by rw [rapidTrace_576]; decide⟩

/-- Claim C3, amended: at the end of every tick at most 5 bullets are live;
the configured cap of 3 constrains only the firing action — while the
rapid-fire timer is 0, a fire request with 3 or more live bullets is a
no-op — but up to 5 bullets fired during rapid fire may persist after the
timer expires. -/
theorem C3_amended (w : World) (hw : Reachable w) :
    w.game.bullets.length ≤ 5 ∧
    (w.game.rapid_fire_timer ≤ 0 → 3 ≤ (w.game.bullets.length : ℤ) →
      create_bullet w.game = w.game) := by
  have h := reachable_inv hw
  refine ⟨h.2.2.2.2, fun ht hb => ?_⟩
  apply create_bullet_noop
  intro hcon
  rcases hcon with ⟨-, hlt⟩
  rw [if_neg (by omega : ¬ w.game.rapid_fire_timer > 0), h.2.2.1] at hlt
  omega

theorem C3_amended_witness :
    (rapidTrace 576).game.bullets.length ≤ 5 ∧
    create_bullet (rapidTrace 576).game = (rapidTrace 576).game :=
  ⟨(C3_amended (rapidTrace 576) (rapidTrace_reachable 576)).1,
   (C3_amended (rapidTrace 576) (rapidTrace_reachable 576)).2
     (by rw [rapidTrace_576]; decide) (by rw [rapidTrace_576]; decide)⟩

/-! ## A concrete play session in which an obstacle absorbs a bullet (C4)

All four initial enemies are parked away from the action; an obstacle
spawns at frame 86 in the player's column (x = 368, speed 8) and a bullet
is fired at frame 90.  At frame 115 the bullet's rectangle overlaps the
obstacle: the bullet is removed, the obstacle survives. -/

def absorbOracle : Oracle :=
  { spawn := waveDraw, obs := { speedD := 8, x := 368 }, drops := fun _ => false,
    resetSpawns := fun _ => parkedDraw }

def absorbInput (m : ℕ) : Input :=
  if m = 1 ∨ m = 90 then startInput else nullInput

def absorbTrace : ℕ → World
  | 0 => ⟨MENU, reset_game fun _ => parkedDraw⟩
  | n + 1 => (tick (absorbTrace n) (absorbInput (n + 1)) absorbOracle).1

theorem absorbOracle_valid : ValidOracle absorbOracle :=
  ⟨by decide, by decide, fun n => show ValidSpawn parkedDraw by decide⟩

theorem absorbTrace_reachable : ∀ n, Reachable (absorbTrace n)
  | 0 => Reachable.init _ (fun n => show ValidSpawn parkedDraw by decide)
  | n + 1 => Reachable.step (absorbInput (n + 1)) absorbOracle absorbOracle_valid
      (absorbTrace_reachable n)

set_option maxRecDepth 40000 in
/-- Claim C4, counterexample: in a reachable session, the obstacle that
absorbs the only live bullet at frame 115 is not removed — the bullet
vanishes, the obstacle collection still holds it, and no life is lost, so
absorbing a bullet is not a destruction case for obstacles. -/
theorem C4_counterexample :
    Reachable (absorbTrace 115) ∧
    ((absorbTrace 114).game.bullets.length = 1 ∧
     (absorbTrace 114).game.obstacles.length = 1 ∧
     (absorbTrace 115).game.bullets.length = 0 ∧
     (absorbTrace 115).game.obstacles.length = 1 ∧
     (absorbTrace 114).game.lives = 3 ∧
     (absorbTrace 115).game.lives = 3) :=
  ⟨absorbTrace_reachable 115, by decide⟩

/-- Claim C4, amended: an obstacle is destroyed in exactly two cases — past
the bottom edge, or hitting the player (which costs one life); an obstacle
that absorbs a bullet removes the bullet but itself survives the tick. -/
theorem C4_amended (st : World × List Obstacle) (obs : Obstacle) :
    ((movedObs obs).y > SCREEN_HEIGHT → processObstacle st obs = (st.1, st.2)) ∧
    (¬ (movedObs obs).y > SCREEN_HEIGHT →
      (rect_overlap st.1.game.playerX st.1.game.playerY 64 64 (movedObs obs).x
          (movedObs obs).y (movedObs obs).w (movedObs obs).h = true →
        (processObstacle st obs).2 = st.2 ∧
        (processObstacle st obs).1.game.lives = st.1.game.lives - 1) ∧
      (rect_overlap st.1.game.playerX st.1.game.playerY 64 64 (movedObs obs).x
          (movedObs obs).y (movedObs obs).w (movedObs obs).h = false →
        (processObstacle st obs).2 = st.2 ++ [movedObs obs] ∧
        (processObstacle st obs).1.game.lives = st.1.game.lives ∧
        (processObstacle st obs).1.game.bullets = obsBullets st.1.game (movedObs obs))) := by
  unfold processObstacle
  refine ⟨fun hy => ?_, fun hy => ⟨fun hov => ?_, fun hov => ?_⟩⟩
  · rw [if_pos hy]
  · rw [if_neg hy, if_pos hov]
    by_cases hlv : st.1.game.lives - 1 ≤ 0
    · rw [if_pos hlv]; exact ⟨rfl, rfl⟩
    · rw [if_neg hlv]; exact ⟨rfl, rfl⟩
  · rw [if_neg hy, if_neg (by rw [hov]; exact Bool.false_ne_true)]
    exact ⟨rfl, rfl, rfl⟩

def sampleObs : Obstacle :=
  { x := 100, y := 100, w := 20, h := 20, speed := 8, color := (200, 180, 60) }

theorem C4_amended_witness :
    ¬ (movedObs sampleObs).y > SCREEN_HEIGHT ∧
    (processObstacle (⟨PLAYING, freshGame⟩, []) sampleObs).2 = [] ++ [movedObs sampleObs] := by
  refine ⟨by decide, ?_⟩
  exact (((C4_amended (⟨PLAYING, freshGame⟩, []) sampleObs).2 (by decide)).2 (by decide)).1

/-! ## Claims about the fire action, the spawner, the level-up rule -/

/-- Claim C5: the fire action creates a bullet iff the cooldown is 0 and
the bullet count is below the effective maximum (5 during rapid fire, else
the configured 3); on success the bullet is created at the player's
position with the standard speed and the cooldown is reset to 5 during
rapid fire or 15 otherwise; otherwise the request is a silent no-op.
(Stated over reachable states, where the cooldown is never negative and
the configured maximum is the constant 3.) -/
theorem C5_fire (w : World) (hw : Reachable w) :
    (create_bullet w.game ≠ w.game ↔
      (w.game.shoot_cooldown = 0 ∧
        (w.game.bullets.length : ℤ) < (if 0 < w.game.rapid_fire_timer then 5 else 3))) ∧
    (w.game.shoot_cooldown = 0 →
      (w.game.bullets.length : ℤ) < (if 0 < w.game.rapid_fire_timer then 5 else 3) →
      create_bullet w.game =
        { w.game with
            bullets := w.game.bullets ++
              [{ x := w.game.playerX, y := w.game.playerY, speed := BULLET_SPEED }],
            shoot_cooldown := if 0 < w.game.rapid_fire_timer then 5 else 15 }) ∧
    (¬ (w.game.shoot_cooldown = 0 ∧
        (w.game.bullets.length : ℤ) < (if 0 < w.game.rapid_fire_timer then 5 else 3)) →
      create_bullet w.game = w.game) := by
  have h := reachable_inv hw
  have hsc := h.2.2.2.1
  have hmb := h.2.2.1
  have hcond : (w.game.shoot_cooldown = 0 ∧
      (w.game.bullets.length : ℤ) < (if 0 < w.game.rapid_fire_timer then 5 else 3)) ↔
      (w.game.shoot_cooldown ≤ 0 ∧
      (w.game.bullets.length : ℤ) <
        (if w.game.rapid_fire_timer > 0 then 5 else w.game.max_bullets)) := by
    rw [hmb]
    constructor
    · rintro ⟨h1, h2⟩; exact ⟨by omega, h2⟩
    · rintro ⟨h1, h2⟩; exact ⟨by omega, h2⟩
  refine ⟨⟨?_, ?_⟩, ?_, ?_⟩
  · intro hne
    by_contra hc
    exact hne (create_bullet_noop fun hx => hc (hcond.2 hx))
  · rintro ⟨h1, h2⟩
    rw [create_bullet_fires (hcond.1 ⟨h1, h2⟩)]
    intro heq
    have hlen := congrArg (fun gg => gg.bullets.length) heq
    simp at hlen
  · intro h1 h2
    exact create_bullet_fires (hcond.1 ⟨h1, h2⟩)
  · intro hne
    exact create_bullet_noop fun hx => hne (hcond.2 hx)

theorem C5_fire_witness :
    ((edgeTrace 1).game.shoot_cooldown = 0 ∧
      ((edgeTrace 1).game.bullets.length : ℤ) <
        (if 0 < (edgeTrace 1).game.rapid_fire_timer then 5 else 3)) ∧
    create_bullet (edgeTrace 1).game =
      { (edgeTrace 1).game with
          bullets := (edgeTrace 1).game.bullets ++
            [{ x := (edgeTrace 1).game.playerX, y := (edgeTrace 1).game.playerY,
               speed := BULLET_SPEED }],
          shoot_cooldown := if 0 < (edgeTrace 1).game.rapid_fire_timer then 5 else 15 } :=
  ⟨⟨by decide, by decide⟩,
   (C5_fire (edgeTrace 1) (edgeTrace_reachable 1)).2.1 (by decide) (by decide)⟩

theorem spawnedEnemy_etype (g : Game) (d : SpawnDraw) :
    (spawnedEnemy g d).etype = spawnType g.level d := rfl

/-- Claim C6: the enemy spawner no-ops when the enemy count has reached the
current cap, otherwise appends exactly one enemy; the new enemy's type is
always Basic below level 3, one of Basic/Fast between levels 3 and 4, one
of Basic/Fast/Tank from level 5 on — and in the random regimes every
allowed type is attainable by some valid draw (uniformity itself is a
property of the random source, modelled here as an oracle index). -/
theorem C6_spawn (g : Game) (d : SpawnDraw) :
    ((g.enemies.length : ℤ) ≥ g.max_enemies_on_screen → spawn_enemy g d = g) ∧
    (¬ (g.enemies.length : ℤ) ≥ g.max_enemies_on_screen →
      (spawn_enemy g d).enemies = g.enemies ++ [spawnedEnemy g d]) ∧
    (g.level < 3 → (spawnedEnemy g d).etype = ENEMY_BASIC) ∧
    (3 ≤ g.level → g.level < 5 →
      ((spawnedEnemy g d).etype = ENEMY_BASIC ∨ (spawnedEnemy g d).etype = ENEMY_FAST) ∧
      (∀ t : ℕ, t = ENEMY_BASIC ∨ t = ENEMY_FAST →
        ∃ d2 : SpawnDraw, ValidSpawn d2 ∧ (spawnedEnemy g d2).etype = t)) ∧
    (5 ≤ g.level →
      ((spawnedEnemy g d).etype = ENEMY_BASIC ∨ (spawnedEnemy g d).etype = ENEMY_FAST ∨
        (spawnedEnemy g d).etype = ENEMY_TANK) ∧
      (∀ t : ℕ, t = ENEMY_BASIC ∨ t = ENEMY_FAST ∨ t = ENEMY_TANK →
        ∃ d2 : SpawnDraw, ValidSpawn d2 ∧ (spawnedEnemy g d2).etype = t)) := by
  refine ⟨fun hc => spawn_enemy_at_cap hc,
    fun hc => by rw [spawn_enemy_below_cap hc], ?_, ?_, ?_⟩
  · intro h3
    rw [spawnedEnemy_etype]
    unfold spawnType
    rw [if_neg (by omega), if_neg (by omega)]
  · intro h3 h5
    constructor
    · rw [spawnedEnemy_etype]
      unfold spawnType
      rw [if_neg (by omega), if_pos (by omega)]
      unfold choose
      have hm : d.typeChoice % 2 = 0 ∨ d.typeChoice % 2 = 1 := by omega
      rcases hm with hm | hm
      · rw [show ([ENEMY_BASIC, ENEMY_FAST].length) = 2 from rfl, hm]
        exact Or.inl rfl
      · rw [show ([ENEMY_BASIC, ENEMY_FAST].length) = 2 from rfl, hm]
        exact Or.inr rfl
    · rintro t (rfl | rfl)
      · refine ⟨⟨0, 0, 2/5, 0, -60, 60, true⟩, by decide, ?_⟩
        rw [spawnedEnemy_etype]
        unfold spawnType
        rw [if_neg (by omega), if_pos (by omega)]
        decide
      · refine ⟨⟨1, 0, 2/5, 0, -60, 60, true⟩, by decide, ?_⟩
        rw [spawnedEnemy_etype]
        unfold spawnType
        rw [if_neg (by omega), if_pos (by omega)]
        decide
  · intro h5
    constructor
    · rw [spawnedEnemy_etype]
      unfold spawnType
      rw [if_pos (by omega)]
      unfold choose
      have hm : d.typeChoice % 3 = 0 ∨ d.typeChoice % 3 = 1 ∨ d.typeChoice % 3 = 2 := by omega
      rcases hm with hm | hm | hm
      · rw [show ([ENEMY_BASIC, ENEMY_FAST, ENEMY_TANK].length) = 3 from rfl, hm]
        exact Or.inl rfl
      · rw [show ([ENEMY_BASIC, ENEMY_FAST, ENEMY_TANK].length) = 3 from rfl, hm]
        exact Or.inr (Or.inl rfl)
      · rw [show ([ENEMY_BASIC, ENEMY_FAST, ENEMY_TANK].length) = 3 from rfl, hm]
        exact Or.inr (Or.inr rfl)
    · rintro t (rfl | rfl | rfl)
      · refine ⟨⟨0, 0, 2/5, 0, -60, 60, true⟩, by decide, ?_⟩
        rw [spawnedEnemy_etype]
        unfold spawnType
        rw [if_pos (by omega)]
        decide
      · refine ⟨⟨1, 0, 2/5, 0, -60, 60, true⟩, by decide, ?_⟩
        rw [spawnedEnemy_etype]
        unfold spawnType
        rw [if_pos (by omega)]
        decide
      · refine ⟨⟨2, 0, 2/5, 0, -60, 60, true⟩, by decide, ?_⟩
        rw [spawnedEnemy_etype]
        unfold spawnType
        rw [if_pos (by omega)]
        decide

theorem C6_spawn_witness :
    ¬ ((freshGame.enemies.length : ℤ) ≥ freshGame.max_enemies_on_screen) ∧
    (spawn_enemy freshGame edgeDraw).enemies =
      freshGame.enemies ++ [spawnedEnemy freshGame edgeDraw] ∧
    freshGame.level < 3 ∧ (spawnedEnemy freshGame edgeDraw).etype = ENEMY_BASIC :=
  ⟨by decide, (C6_spawn freshGame edgeDraw).2.1 (by decide), by decide,
   (C6_spawn freshGame edgeDraw).2.2.1 (by decide)⟩

/-- A game one basic kill short of the first level-up threshold. -/
def preLevelUpGame : Game := { freshGame with score_value := 190 }

/-- A basic enemy whose health was just depleted. -/
def killedEnemy : Enemy :=
  { x := 300, y := 300, x_change := 2, y_change := 30, fall_speed := 1,
    etype := ENEMY_BASIC, health := 0, max_health := 1, points := 10 }

/-- Claim C7, counterexample: at level 1 with 190 points, killing a
10-point enemy crosses the threshold 200 = (150 + 50·1)·1, the level
increments to 2, yet the max-enemies cap stays at its initial 6 (the code
sets it to min(8, 4 + newLevel) = 6), so the cap is not raised. -/
theorem C7_counterexample :
    preLevelUpGame.score_value + killedEnemy.points ≥
      (150 + preLevelUpGame.level * 50) * preLevelUpGame.level ∧
    (enemyKill preLevelUpGame killedEnemy false).level = preLevelUpGame.level + 1 ∧
    (enemyKill preLevelUpGame killedEnemy false).max_enemies_on_screen = 6 ∧
    preLevelUpGame.max_enemies_on_screen = 6 := by decide

/-- Claim C7, amended: when an enemy's health reaches 0 or below from a
bullet hit, the kill handler runs (points added to the score, then the
level-up rule): if the new score is at least (150 + 50·level)·level the
level increments by exactly 1, the difficulty multiplier grows by 0.2 and
the max-enemies cap is set to min(8, 4 + newLevel) — never above the
global maximum 8, but not always strictly raised; otherwise level,
multiplier and cap are unchanged. -/
theorem C7_amended (st : ProcState) (e : Enemy) (bs : List Bullet) (drops : ℕ → Bool)
    (g : Game) (e2 : Enemy) (dr : Bool) :
    (¬ e.y > SCREEN_HEIGHT - 160 →
      hitSplit (moveEnemy e) st.1.game.bullets = some bs →
      (moveEnemy e).health - 1 ≤ 0 →
      (processEnemy drops st e).1.game =
        enemyKill { st.1.game with bullets := bs }
          { moveEnemy e with health := (moveEnemy e).health - 1 } (drops st.2.2)) ∧
    (enemyKill g e2 dr).score_value = g.score_value + e2.points ∧
    (g.score_value + e2.points ≥ (150 + g.level * 50) * g.level →
      (enemyKill g e2 dr).level = g.level + 1 ∧
      (enemyKill g e2 dr).difficulty_multiplier = g.difficulty_multiplier + 1/5 ∧
      (enemyKill g e2 dr).max_enemies_on_screen = min 8 (4 + (g.level + 1)) ∧
      (enemyKill g e2 dr).max_enemies_on_screen ≤ 8) ∧
    (¬ g.score_value + e2.points ≥ (150 + g.level * 50) * g.level →
      (enemyKill g e2 dr).level = g.level ∧
      (enemyKill g e2 dr).difficulty_multiplier = g.difficulty_multiplier ∧
      (enemyKill g e2 dr).max_enemies_on_screen = g.max_enemies_on_screen) := by
  refine ⟨?_, enemyKill_score g e2 dr, ?_, ?_⟩
  · intro hy hh hk
    unfold processEnemy
    rw [if_neg hy]
    simp only [hh]
    rw [if_pos hk]
  · intro hcond
    unfold enemyKill
    cases dr
    · rw [if_neg Bool.false_ne_true, levelUpCheck_pos (g := scoredGame g e2) hcond]
      exact ⟨rfl, rfl, rfl, min_le_left _ _⟩
    · rw [if_pos rfl, levelUpCheck_pos (g := scoredDropGame g e2) hcond]
      exact ⟨rfl, rfl, rfl, min_le_left _ _⟩
  · intro hcond
    unfold enemyKill
    cases dr
    · rw [if_neg Bool.false_ne_true, levelUpCheck_neg (g := scoredGame g e2) hcond]
      exact ⟨rfl, rfl, rfl⟩
    · rw [if_pos rfl, levelUpCheck_neg (g := scoredDropGame g e2) hcond]
      exact ⟨rfl, rfl, rfl⟩

theorem C7_amended_witness :
    (enemyKill preLevelUpGame killedEnemy true).score_value = 200 ∧
    (enemyKill preLevelUpGame killedEnemy true).level = preLevelUpGame.level + 1 ∧
    (enemyKill preLevelUpGame killedEnemy true).difficulty_multiplier =
      preLevelUpGame.difficulty_multiplier + 1/5 ∧
    (enemyKill preLevelUpGame killedEnemy true).max_enemies_on_screen ≤ 8 := by
  have h := C7_amended (⟨PLAYING, preLevelUpGame⟩, [], 0) killedEnemy []
    (fun _ => false) preLevelUpGame killedEnemy true
  have hp := h.2.2.1 (by decide)
  exact ⟨by rw [h.2.1]; decide, hp.1, hp.2.1, hp.2.2.2⟩

/-! ## Restart and back-to-menu claims -/

theorem tick_menu_resetSpec (w : World) (inp : Input) (o : Oracle)
    (hm : w.game_state = MENU) (hp : (tick w inp o).1.game_state = PLAYING) :
    ResetSpec (tick w inp o).1.game := by
  unfold tick at hp ⊢
  rw [if_pos hm] at hp ⊢
  exact handle_menu_input_resetSpec o.resetSpawns inp.events w 0
    (fun hc => absurd (hm.symm.trans hc) (by decide)) hp

theorem tick_gameover_resetSpec (w : World) (inp : Input) (o : Oracle)
    (hm : w.game_state = GAME_OVER) (hp : (tick w inp o).1.game_state = PLAYING) :
    ResetSpec (tick w inp o).1.game := by
  unfold tick at hp ⊢
  rw [if_neg (by rw [hm]; decide), if_neg (by rw [hm]; decide), if_pos hm] at hp ⊢
  exact handle_game_over_input_resetSpec o.resetSpawns inp.events w 0
    (fun hc => absurd (hm.symm.trans hc) (by decide)) hp

/-- Claim C8: every restart transition (a MENU or GAME_OVER frame that ends
in PLAYING mode) resets score to 0, level to 1, lives to 3 and seeds
exactly the 4 configured initial enemies. -/
theorem C8_restart (w : World) (inp : Input) (o : Oracle)
    (hm : w.game_state = MENU ∨ w.game_state = GAME_OVER)
    (hp : (tick w inp o).1.game_state = PLAYING) :
    (tick w inp o).1.game.score_value = 0 ∧ (tick w inp o).1.game.level = 1 ∧
    (tick w inp o).1.game.lives = 3 ∧ (tick w inp o).1.game.enemies.length = 4 := by
  rcases hm with hm | hm
  · exact tick_menu_resetSpec w inp o hm hp
  · exact tick_gameover_resetSpec w inp o hm hp

theorem C8_restart_witness :
    (edgeTrace 0).game_state = MENU ∧
    (tick (edgeTrace 0) startInput edgeOracle).1.game_state = PLAYING ∧
    ((tick (edgeTrace 0) startInput edgeOracle).1.game.score_value = 0 ∧
     (tick (edgeTrace 0) startInput edgeOracle).1.game.level = 1 ∧
     (tick (edgeTrace 0) startInput edgeOracle).1.game.lives = 3 ∧
     (tick (edgeTrace 0) startInput edgeOracle).1.game.enemies.length = 4) :=
  ⟨by decide, by decide,
   C8_restart (edgeTrace 0) startInput edgeOracle (Or.inl (by decide)) (by decide)⟩

/-- Claim C9: the 30-pixel step-down applies on every frame in which the
enemy's x position after the horizontal move is ≤ 0 or ≥ screenWidth − 64
(not only when the edge is first reached): the per-frame move adds
y_change + fall_speed to y exactly in that case and only fall_speed
otherwise, and every spawned enemy carries y_change = 30; hence an enemy
that stays at or beyond an edge descends by 30 plus its fall speed on each
such frame. -/
theorem C9_stepdown (e : Enemy) (g : Game) (d : SpawnDraw) :
    (e.x + e.x_change ≤ 0 ∨ e.x + e.x_change ≥ SCREEN_WIDTH - 64 →
      (moveEnemy e).y = e.y + e.y_change + e.fall_speed) ∧
    (0 < e.x + e.x_change → e.x + e.x_change < SCREEN_WIDTH - 64 →
      (moveEnemy e).y = e.y + e.fall_speed) ∧
    (moveEnemy e).x = e.x + e.x_change ∧
    (spawnedEnemy g d).y_change = ENEMY_DROP_SPEED := by
  refine ⟨?_, ?_, ?_, rfl⟩
  · rintro (h | h)
    · unfold moveEnemy
      rw [if_pos h]
    · unfold moveEnemy
      by_cases h0 : e.x + e.x_change ≤ 0
      · rw [if_pos h0]
      · rw [if_neg h0, if_pos h]
  · intro h1 h2
    unfold moveEnemy
    rw [if_neg (not_le.mpr h1), if_neg (not_le.mpr h2)]
  · unfold moveEnemy
    split
    next => rfl
    next =>
      split
      next => rfl
      next => rfl

/-- An enemy sitting just outside the left edge and moving right, as the
left-edge spawner creates them. -/
def leftEdgeEnemy : Enemy :=
  { x := -64, y := 200, x_change := 2, y_change := 30, fall_speed := 6/5,
    etype := ENEMY_BASIC, health := 1, max_health := 1, points := 10 }

theorem C9_stepdown_witness :
    leftEdgeEnemy.x + leftEdgeEnemy.x_change ≤ 0 ∧
    (moveEnemy leftEdgeEnemy).y =
      leftEdgeEnemy.y + leftEdgeEnemy.y_change + leftEdgeEnemy.fall_speed ∧
    (spawnedEnemy freshGame edgeDraw).y_change = ENEMY_DROP_SPEED :=
  ⟨by decide,
   (C9_stepdown leftEdgeEnemy freshGame edgeDraw).1 (Or.inl (by decide)),
   (C9_stepdown leftEdgeEnemy freshGame edgeDraw).2.2.2⟩

def rightInput : Input := { events := [], leftHeld := false, rightHeld := true }

def escInput : Input := { events := [Ev.key Key.escape], leftHeld := false, rightHeld := false }

/-- A reachable PLAYING state in which the player is moving right. -/
def movingState : World := (tick (edgeTrace 1) rightInput edgeOracle).1

/-- Claim C10, counterexample: the back-to-menu input does not change only
the mode variable — handle_game_input also overwrites the player's
horizontal velocity from the held keys, so from a reachable state with
playerX_change = 7, pressing ESC with no key held sets the mode to MENU
and playerX_change to 0. -/
theorem C10_counterexample :
    Reachable movingState ∧
    movingState.game_state = PLAYING ∧
    movingState.game.playerX_change = 7 ∧
    (handle_game_input movingState escInput).1.game_state = MENU ∧
    (handle_game_input movingState escInput).1.game.playerX_change = 0 :=
  ⟨Reachable.step rightInput edgeOracle edgeOracle_valid (edgeTrace_reachable 1),
   by decide, by decide, by decide, by decide⟩

/-- Claim C10, amended: the back-to-menu input sets the mode to MENU and
overwrites only the player's horizontal velocity (from the held movement
keys, 0 when none); score, level, lives, timers and all entity collections
are left unchanged.  And since every MENU→PLAYING transition resets the
simulation, a session abandoned to the menu can never be resumed with its
state intact. -/
theorem C10_amended (w : World) (inp : Input)
    (hesc : Ev.key Key.escape ∈ inp.events)
    (hns : Ev.key Key.space ∉ inp.events) (hnq : Ev.quit ∉ inp.events) :
    (handle_game_input w inp).1.game_state = MENU ∧
    (handle_game_input w inp).1.game =
      { w.game with playerX_change :=
          if inp.leftHeld then -PLAYER_SPEED
          else if inp.rightHeld then PLAYER_SPEED else 0 } ∧
    (∀ (w2 : World) (inp2 : Input) (o2 : Oracle), w2.game_state = MENU →
      (tick w2 inp2 o2).1.game_state = PLAYING →
      (tick w2 inp2 o2).1.game.score_value = 0 ∧ (tick w2 inp2 o2).1.game.level = 1 ∧
      (tick w2 inp2 o2).1.game.lives = 3 ∧ (tick w2 inp2 o2).1.game.enemies.length = 4) := by
  have hr := handle_game_events_no_space inp.events w hns hnq
  refine ⟨?_, ?_, fun w2 inp2 o2 hm hp => tick_menu_resetSpec w2 inp2 o2 hm hp⟩
  · unfold handle_game_input
    rw [if_pos hr.2.1]
    show (handle_game_events w inp.events).1.game_state = MENU
    rw [hr.2.2, if_pos hesc]
  · unfold handle_game_input
    rw [if_pos hr.2.1]
    show ({ (handle_game_events w inp.events).1.game with
        playerX_change :=
          if inp.leftHeld then -PLAYER_SPEED
          else if inp.rightHeld then PLAYER_SPEED else 0 } : Game) =
      { w.game with playerX_change :=
          if inp.leftHeld then -PLAYER_SPEED
          else if inp.rightHeld then PLAYER_SPEED else 0 }
    rw [hr.1]

theorem C10_amended_witness :
    (handle_game_input movingState escInput).1.game_state = MENU ∧
    (handle_game_input movingState escInput).1.game =
      { movingState.game with playerX_change := 0 } := by
  have h := C10_amended movingState escInput (by decide) (by decide) (by decide)
  refine ⟨h.1, ?_⟩
  rw [h.2.1]
  rfl

end SpaceInvaders
